import Mathlib

/-!
# ird: events of the Apple Infrared Remote

A shallow embedding of `ird.c`.  The program is a sequence of calls into the
operating system (IOKit, CoreFoundation, libc).  The embedding keeps the
process state explicit:

* the three process-wide variables `buttonNextID`, `buttonPreviousID` and
  `drivePreview`;
* the ordered list of calls the process has made into the outside world
  (`World.trace`), which is what an observer of the process can see.

Every function of `ird.c` becomes a Lean function on `World`; the results
of the operating-system calls are read from an `Env`.
-/

namespace Ird

/-! ## Data model -/

/-- The type `IOHIDElementCookie` of IOKit: `uint32_t` under LP64 and a
32-bit pointer otherwise; in both cases a 32-bit token, kept here as its
unsigned value. -/
abbrev IOHIDElementCookie := Nat

/-- The conversion `(IOHIDElementCookie)number` of a C `long` to a cookie: the
low 32 bits. -/
def toCookie (number : Int) : IOHIDElementCookie := (number % 2 ^ 32).toNat

/-- The fields of `IOHIDEventStruct` that the program reads. -/
structure IOHIDEventStruct where
  elementCookie : IOHIDElementCookie
  value : Int
deriving DecidableEq, Repr, Inhabited

/-- The record `struct cookie_struct`. -/
structure cookie_struct where
  gButtonCookie_SystemAppMenu : IOHIDElementCookie
  gButtonCookie_SystemMenuSelect : IOHIDElementCookie
  gButtonCookie_SystemMenuRight : IOHIDElementCookie
  gButtonCookie_SystemMenuLeft : IOHIDElementCookie
  gButtonCookie_SystemMenuUp : IOHIDElementCookie
  gButtonCookie_SystemMenuDown : IOHIDElementCookie
deriving DecidableEq, Repr

/-- One call of the process into the outside world, in the order made. -/
inductive Call where
  /-- Call `system(cmd)`. -/
  | system (cmd : String)
  /-- Text written to standard output by `printf`. -/
  | stdout (text : String)
  /-- Text written to standard error by `fprintf(stderr, ...)`. -/
  | stderr (text : String)
  /-- The diagnostic that `getopt_long` itself writes to standard error when
  it meets an option it does not know (`opterr` is left at 1). -/
  | getoptDiagnostic
  /-- Call `getNextEvent(hqi, &event, maxTime, timeoutMS)`; `maxTime` is an
  `AbsoluteTime` of two words. -/
  | getNextEvent (maxTimeHi maxTimeLo timeoutMS : Nat)
  /-- Call `IOServiceNameMatching(name)`. -/
  | IOServiceNameMatching (name : String)
  /-- Call `IOServiceGetMatchingService`. -/
  | IOServiceGetMatchingService
  /-- Call `IOObjectGetClass`. -/
  | IOObjectGetClass
  /-- Call `IOCreatePlugInInterfaceForService`. -/
  | IOCreatePlugInInterfaceForService
  /-- Call `(*plugInInterface)->QueryInterface`. -/
  | QueryInterface
  /-- Call `(*plugInInterface)->Release`. -/
  | plugInRelease
  /-- Call `(*handle)->copyMatchingElements`. -/
  | copyMatchingElements
  /-- Call `IOObjectRelease(hidDevice)`. -/
  | IOObjectRelease
  /-- Call `(*hidDeviceInterface)->open(hidDeviceInterface, flags)`. -/
  | deviceOpen (flags : Nat)
  /-- Call `(*hidDeviceInterface)->close`. -/
  | deviceClose
  /-- Call `(*hidDeviceInterface)->Release`. -/
  | deviceRelease
  /-- Call `(*hidDeviceInterface)->allocQueue`. -/
  | allocQueue
  /-- Call `(*queue)->create(queue, flags, depth)`. -/
  | queueCreate (flags depth : Nat)
  /-- Call `(*queue)->addElement(queue, cookie, flags)`. -/
  | addElement (cookie : IOHIDElementCookie) (flags : Nat)
  /-- Call `(*hqi)->createAsyncEventSource`. -/
  | createAsyncEventSource
  /-- Call `(*hqi)->setEventCallout(hqi, QueueCallbackFunction, ...)`. -/
  | setEventCallout
  /-- Call `CFRunLoopAddSource`. -/
  | CFRunLoopAddSource
  /-- Call `(*queue)->start`. -/
  | queueStart
  /-- Call `CFRunLoopRun()`. -/
  | CFRunLoopRun
  /-- Call `(*queue)->stop`. -/
  | queueStop
  /-- Call `(*queue)->dispose`. -/
  | queueDispose
  /-- Call `(*queue)->Release`. -/
  | queueRelease
deriving DecidableEq, Repr

/-- The process state: the three global variables and the calls made so far. -/
structure World where
  buttonNextID : IOHIDElementCookie
  buttonPreviousID : IOHIDElementCookie
  drivePreview : Int
  trace : List Call
deriving DecidableEq, Repr

/-- Record one call. -/
def World.call (w : World) (c : Call) : World :=
  { w with trace := w.trace ++ [c] }

/-- The state at process start: `buttonNextID = 0`, `buttonPreviousID = 0`,
`drivePreview = 0`, nothing called yet. -/
def World.initial : World :=
  { buttonNextID := 0, buttonPreviousID := 0, drivePreview := 0, trace := [] }

/-- How a function of the program ends: it returns a value, the process is
terminated by `exit(status)`, or the process stays inside `CFRunLoopRun`
for ever. -/
inductive Result (α : Type) where
  | ret (a : α) (w : World)
  | exit (status : Nat) (w : World)
  | blocked (w : World)
deriving DecidableEq, Repr

/-- Sequencing: the rest of a function body runs only when the call returned. -/
def Result.bind {α β : Type} (r : Result α) (f : α → World → Result β) : Result β :=
  match r with
  | .ret a w => f a w
  | .exit s w => .exit s w
  | .blocked w => .blocked w

/-- The process state at the end. -/
def Result.world {α : Type} : Result α → World
  | .ret _ w => w
  | .exit _ w => w
  | .blocked w => w

/-- A value of type `IOHIDDeviceInterface **`: `NULL`, a non-null pointer
whose target is `NULL`, or the device interface. -/
inductive InterfaceRef where
  | NULL
  | nullTarget
  | object
deriving DecidableEq, Repr

/-- One dictionary of the array returned by `copyMatchingElements`: for each
of the three keys the `long` that `CFNumberGetValue` reads, or `none` when
the key is missing, its value is not a `CFNumber`, or `CFNumberGetValue`
returns false. -/
structure IOHIDElement where
  cookie : Option Int
  usage : Option Int
  usagePage : Option Int
deriving DecidableEq, Repr

/-- What the program reads from outside: the constants of
`IOHIDUsageTables.h` and the results of the operating-system calls. -/
structure Env where
  kHIDPage_GenericDesktop : Int
  kHIDUsage_GD_SystemAppMenu : Int
  kHIDUsage_GD_SystemMenu : Int
  kHIDUsage_GD_SystemMenuRight : Int
  kHIDUsage_GD_SystemMenuLeft : Int
  kHIDUsage_GD_SystemMenuUp : Int
  kHIDUsage_GD_SystemMenuDown : Int
  /-- The text of `mach_error_string(err)`. -/
  mach_error_string : Int → String
  /-- The result of `IOServiceGetMatchingService` (0: no service). -/
  hidService : Nat
  /-- The status of `IOObjectGetClass`. -/
  IOObjectGetClass : Int
  /-- The status of `IOCreatePlugInInterfaceForService`. -/
  IOCreatePlugInInterfaceForService : Int
  /-- The result of `QueryInterface`. -/
  QueryInterface : Int
  /-- Whether `malloc` in `getHIDCookies` returns memory. -/
  mallocOk : Bool
  /-- The status of `copyMatchingElements`. -/
  copyMatchingElements : Int
  /-- The array stored by `copyMatchingElements`. -/
  elements : List IOHIDElement
  /-- The status of `IOObjectRelease`. -/
  IOObjectRelease : Int
  /-- The status of `open` called in `setupAndRun`. -/
  open_setupAndRun : Int
  /-- The status of `open` called in `doRun`. -/
  open_doRun : Int
  /-- Whether `allocQueue` returns a queue. -/
  allocQueue : Bool
  /-- The status of `createAsyncEventSource`. -/
  createAsyncEventSource : Int
  /-- The status of `setEventCallout`. -/
  setEventCallout : Int
  /-- The queue contents found at the successive notifications of the run loop. -/
  wakes : List (List IOHIDEventStruct)
  /-- Whether `CFRunLoopRun` returns after these notifications. -/
  runLoopReturns : Bool

/-- The `case` labels of the `switch` in `getHIDCookies` are pairwise
different, as C requires. -/
def Env.WellFormed (env : Env) : Prop :=
  [env.kHIDUsage_GD_SystemAppMenu, env.kHIDUsage_GD_SystemMenu,
    env.kHIDUsage_GD_SystemMenuRight, env.kHIDUsage_GD_SystemMenuLeft,
    env.kHIDUsage_GD_SystemMenuUp, env.kHIDUsage_GD_SystemMenuDown].Nodup

instance (env : Env) : Decidable env.WellFormed := by
  unfold Env.WellFormed; infer_instance

/-! ## Platform constants -/

/-- The value `S_OK`. -/
def S_OK : Int := 0

/-- The value `KERN_SUCCESS`. -/
def KERN_SUCCESS : Int := 0

/-- Modelled from the spec: the exit status `EX_OSERR` of `sysexits.h`, the
dedicated "OS-service error" status, distinct from the generic status 1. -/
def EX_OSERR : Nat := 71

/-- The value `kIOReturnSuccess`. -/
def kIOReturnSuccess : Int := 0

/-- The value `kIOReturnUnderrun`, returned by `getNextEvent` on an empty queue. -/
def kIOReturnUnderrun : Int := 0xe00002e7

/-! ## libc formatting -/

/-- The conversion `%#lx` of `printf` applied to `(long unsigned int)cookie`
(the cast widens a cookie and keeps its value): lower-case hexadecimal
without padding, with `0x` in front of a nonzero value and nothing in front
of zero. -/
def fmt_hash_lx (cookie : IOHIDElementCookie) : String :=
  let v := cookie % 2 ^ 64
  if v = 0 then "0" else "0x" ++ String.mk (Nat.toDigits 16 v)

/-! ## PreviewChangeSlide -/

/-- The command of the first `system` call in `PreviewChangeSlide`. -/
def cmdNextItem : String :=
  "/usr/bin/osascript -e \x27tell application \"Preview\" to activate\x27 -e \x27tell application \"System Events\" to click menu item \"Next Item\" of menu \"Go\" of menu bar item \"Go\" of menu bar 1 of application process \"Preview\"\x27 > /dev/null"

/-- The command of the second `system` call in `PreviewChangeSlide`. -/
def cmdPreviousItem : String :=
  "/usr/bin/osascript -e \x27tell application \"Preview\" to activate\x27 -e \x27tell application \"System Events\" to click menu item \"Previous Item\" of menu \"Go\" of menu bar item \"Go\" of menu bar 1 of application process \"Preview\"\x27 > /dev/null"

/-- The function `PreviewChangeSlide(button)`. -/
def PreviewChangeSlide (w : World) (button : IOHIDElementCookie) : World :=
  if button = w.buttonNextID then
    w.call (.system cmdNextItem)
  else if button = w.buttonPreviousID then
    w.call (.system cmdPreviousItem)
  else
    w

/-! ## QueueCallbackFunction -/

/-- The queue behind `sender`: the buffered events, oldest first. -/
abbrev Queue := List IOHIDEventStruct

/-- The queue operation `getNextEvent`: the status, the event written through
`&event` and the queue left behind.  On an empty queue the status is
`kIOReturnUnderrun` and the event is not meaningful. -/
def getNextEvent : Queue → Int × IOHIDEventStruct × Queue
  | [] => (kIOReturnUnderrun, default, [])
  | e :: rest => (kIOReturnSuccess, e, rest)

/-- The edge label chosen by `(event.value) ? "pressed" : "depressed"`. -/
def edgeLabel (value : Int) : String :=
  if value ≠ 0 then "pressed" else "depressed"

/-- The text of `printf("%#lx %s\n", ...)` for one event. -/
def reportLine (event : IOHIDEventStruct) : String :=
  fmt_hash_lx event.elementCookie ++ " " ++ edgeLabel event.value ++ "\n"

/-- The block guarded by `if (!ret)` inside the loop of
`QueueCallbackFunction`: what is done with one event. -/
def QueueCallbackFunction.dispatch (w : World) (event : IOHIDEventStruct) : World :=
  if w.drivePreview ≠ 0 then
    if event.value ≠ 0 then PreviewChangeSlide w event.elementCookie else w
  else
    w.call (.stdout (reportLine event))

/-- The loop `while (!ret) ...` of `QueueCallbackFunction`, entered with the
current `ret`. -/
def QueueCallbackFunction.loop (ret : Int) (w : World) (q : Queue) : World × Queue :=
  if ret = 0 then
    match h : getNextEvent q with
    | (ret1, event, q1) =>
      let w1 := w.call (.getNextEvent 0 0 0)
      let w2 := if ret1 = 0 then QueueCallbackFunction.dispatch w1 event else w1
      QueueCallbackFunction.loop ret1 w2 q1
  else
    (w, q)
termination_by q.length + (if ret = 0 then 1 else 0)
decreasing_by
  cases q with
  | nil =>
    simp only [getNextEvent, Prod.mk.injEq] at h
    obtain ⟨h1, -, h3⟩ := h
    subst h1 h3
    simp_all [kIOReturnUnderrun]
  | cons e rest =>
    simp only [getNextEvent, Prod.mk.injEq] at h
    obtain ⟨h1, -, h3⟩ := h
    subst h1 h3
    simp_all [kIOReturnSuccess]

/-- The function `QueueCallbackFunction(target, result, refcon, sender)`, with
the queue behind `sender` made explicit: `ret` starts at 0. -/
def QueueCallbackFunction (w : World) (q : Queue) : World × Queue :=
  QueueCallbackFunction.loop 0 w q

/-! ## Error reporting -/

/-- The function `print_errmsg_if_io_err(expr, msg)`: on a status other than
`kIOReturnSuccess` it writes `"*** %s - %s(%x, %d).\n"` with `msg`,
`mach_error_string(err)`, `err` and `err & 0xffffff`, and calls
`exit(EX_OSERR)`. -/
def print_errmsg_if_io_err (env : Env) (w : World) (expr : Int) (msg : String) :
    Result Unit :=
  let err := expr
  if err ≠ kIOReturnSuccess then
    .exit EX_OSERR (w.call (.stderr
      ("*** " ++ msg ++ " - " ++ env.mach_error_string err ++ "("
        ++ String.mk (Nat.toDigits 16 (err % 2 ^ 32).toNat) ++ ", "
        ++ toString ((err % 2 ^ 32).toNat &&& 0xffffff) ++ ").\n")))
  else
    .ret () w

/-- The function `print_errmsg_if_err(expr, msg)`: on a nonzero `expr` it
writes `"*** %s.\n"` with `msg` and calls `exit(EX_OSERR)`. -/
def print_errmsg_if_err (w : World) (expr : Int) (msg : String) : Result Unit :=
  if expr ≠ 0 then
    .exit EX_OSERR (w.call (.stderr ("*** " ++ msg ++ ".\n")))
  else
    .ret () w

/-! ## The queue and the run loop -/

/-- The function `addQueueCallbacks(hqi)`. -/
def addQueueCallbacks (env : Env) (w : World) : Result Bool :=
  let w := w.call .createAsyncEventSource
  let ret := env.createAsyncEventSource
  if ret ≠ kIOReturnSuccess then
    .ret false w
  else
    let w := w.call .setEventCallout
    let ret := env.setEventCallout
    if ret ≠ kIOReturnSuccess then
      .ret false w
    else
      .ret true (w.call .CFRunLoopAddSource)

/-- The call `CFRunLoopRun()`.  With no source added to the run loop it
returns at once.  With the queue's source added, the run loop calls
`QueueCallbackFunction` at each notification, on the events buffered then;
after the notifications of `env.wakes` it either returns or blocks for
ever. -/
def CFRunLoopRun (env : Env) (w : World) : Result Unit :=
  let sourceAdded := decide (Call.CFRunLoopAddSource ∈ w.trace)
  let w := w.call .CFRunLoopRun
  if sourceAdded then
    let w := env.wakes.foldl (fun acc q => (QueueCallbackFunction acc q).1) w
    if env.runLoopReturns then .ret () w else .blocked w
  else
    .ret () w

/-- The function `processQueue(hidDeviceInterface, cookies)`. -/
def processQueue (env : Env) (w : World) (cookies : cookie_struct) : Result Unit :=
  let w := w.call .allocQueue
  if !env.allocQueue then
    .ret () (w.call (.stderr "Failed to allocate event queue.\n"))
  else
    let w := w.call (.queueCreate 0 8)
    let w := w.call (.addElement cookies.gButtonCookie_SystemAppMenu 0)
    let w := w.call (.addElement cookies.gButtonCookie_SystemMenuSelect 0)
    let w := w.call (.addElement cookies.gButtonCookie_SystemMenuRight 0)
    let w := w.call (.addElement cookies.gButtonCookie_SystemMenuLeft 0)
    let w := w.call (.addElement cookies.gButtonCookie_SystemMenuUp 0)
    let w := w.call (.addElement cookies.gButtonCookie_SystemMenuDown 0)
    (addQueueCallbacks env w).bind fun _ w =>
    let w := w.call .queueStart
    (CFRunLoopRun env w).bind fun _ w =>
    let w := w.call .queueStop
    let w := w.call .queueDispose
    .ret () (w.call .queueRelease)

/-- The function `doRun(hidDeviceInterface, cookies)`. -/
def doRun (env : Env) (w : World) (cookies : cookie_struct) : Result Unit :=
  let w := w.call (.deviceOpen 0)
  let ioReturnValue := env.open_doRun
  (processQueue env w cookies).bind fun _ w =>
  let w := if ioReturnValue = KERN_SUCCESS then w.call .deviceClose else w
  .ret () (w.call .deviceRelease)

/-! ## getHIDCookies -/

/-- The record after `memset(cookies, 0, sizeof(*cookies))`. -/
def cookie_struct.zero : cookie_struct :=
  { gButtonCookie_SystemAppMenu := 0, gButtonCookie_SystemMenuSelect := 0,
    gButtonCookie_SystemMenuRight := 0, gButtonCookie_SystemMenuLeft := 0,
    gButtonCookie_SystemMenuUp := 0, gButtonCookie_SystemMenuDown := 0 }

/-- One iteration of the `for` loop of `getHIDCookies`, on the element at
index `i`; the state is the process state and the record `*cookies`. -/
def getHIDCookies.step (env : Env) (st : World × cookie_struct) (element : IOHIDElement) :
    World × cookie_struct :=
  match element.cookie with
  | none => st
  | some number =>
    let cookie := toCookie number
    match element.usage with
    | none => st
    | some usage =>
      match element.usagePage with
      | none => st
      | some usagePage =>
        if usagePage = env.kHIDPage_GenericDesktop then
          if usage = env.kHIDUsage_GD_SystemAppMenu then
            (st.1, { st.2 with gButtonCookie_SystemAppMenu := cookie })
          else if usage = env.kHIDUsage_GD_SystemMenu then
            (st.1, { st.2 with gButtonCookie_SystemMenuSelect := cookie })
          else if usage = env.kHIDUsage_GD_SystemMenuRight then
            ({ st.1 with buttonNextID := cookie },
              { st.2 with gButtonCookie_SystemMenuRight := cookie })
          else if usage = env.kHIDUsage_GD_SystemMenuLeft then
            ({ st.1 with buttonPreviousID := cookie },
              { st.2 with gButtonCookie_SystemMenuLeft := cookie })
          else if usage = env.kHIDUsage_GD_SystemMenuUp then
            (st.1, { st.2 with gButtonCookie_SystemMenuUp := cookie })
          else if usage = env.kHIDUsage_GD_SystemMenuDown then
            (st.1, { st.2 with gButtonCookie_SystemMenuDown := cookie })
          else
            st
        else
          st

/-- The function `getHIDCookies(handle)`. -/
def getHIDCookies (env : Env) (w : World) (handle : InterfaceRef) : Result cookie_struct :=
  if !env.mallocOk then
    .exit 1 (w.call (.stderr "Failed to allocate cookie memory.\n"))
  else
    let cookies := cookie_struct.zero
    if handle = .NULL ∨ handle = .nullTarget then
      .ret cookies w
    else
      let w := w.call .copyMatchingElements
      let result := env.copyMatchingElements
      if result ≠ kIOReturnSuccess then
        .exit 1 (w.call (.stderr "Failed to copy cookies.\n"))
      else
        let st := env.elements.foldl (getHIDCookies.step env) (w, cookies)
        .ret st.2 st.1

/-! ## Acquisition -/

/-- The function `createHIDDeviceInterface(hidDevice, hdi)`; the argument and
the result are the value of `*hdi` before and after. -/
def createHIDDeviceInterface (env : Env) (w : World) (hdi : InterfaceRef) :
    Result InterfaceRef :=
  let w := w.call .IOObjectGetClass
  let ioReturnValue := env.IOObjectGetClass
  (print_errmsg_if_io_err env w ioReturnValue "Failed to get class name.").bind fun _ w =>
  let w := w.call .IOCreatePlugInInterfaceForService
  let ioReturnValue := env.IOCreatePlugInInterfaceForService
  if ioReturnValue ≠ kIOReturnSuccess then
    .ret hdi w
  else
    let w := w.call .QueryInterface
    let plugInResult := env.QueryInterface
    (print_errmsg_if_err w (if plugInResult ≠ S_OK then 1 else 0)
      "Failed to create device interface.\n").bind fun _ w =>
    .ret .object (w.call .plugInRelease)

/-- The function `setupAndRun()`. -/
def setupAndRun (env : Env) (w : World) : Result Unit :=
  let w := w.call (.IOServiceNameMatching "AppleIRController")
  let w := w.call .IOServiceGetMatchingService
  let hidService := env.hidService
  if hidService = 0 then
    .exit 1 (w.call (.stderr "Apple Infrared Remote not found.\n"))
  else
    (createHIDDeviceInterface env w .NULL).bind fun hidDeviceInterface w =>
    (getHIDCookies env w hidDeviceInterface).bind fun cookies w =>
    let w := w.call .IOObjectRelease
    let ioReturnValue := env.IOObjectRelease
    (print_errmsg_if_io_err env w ioReturnValue "Failed to release HID.").bind fun _ w =>
    if hidDeviceInterface = .NULL then
      .exit 1 (w.call (.stderr "No HID.\n"))
    else
      let w := w.call (.deviceOpen 0)
      let ioReturnValue := env.open_setupAndRun
      (doRun env w cookies).bind fun _ w =>
      let w := if ioReturnValue = KERN_SUCCESS then w.call .deviceClose else w
      .ret () (w.call .deviceRelease)

/-! ## main -/

/-- The function `usage()`. -/
def usage (w : World) : World :=
  let w := w.call (.stdout "ird (version 1.0)\n")
  let w := w.call (.stdout "Displays events received from the Apple Infrared Remote.\n")
  let w := w.call (.stdout "Usage: ird [OPTIONS...]\n\nOptions:\n")
  let w := w.call (.stdout "  -h, --help    print this help message and exit\n")
  w.call (.stdout "  -p, --preview use forward/backward button presses for Preview slide transition\n")

/-- The option loop of `main`: `opts` are the values that `getopt_long`
returns before it returns -1.  With the option table of the program these
are `h`, `p`, and `?` for an option it does not know, which it returns
after writing its own diagnostic; the `default` case is reached only
then. -/
def main.options (w : World) : List Char → Result Unit
  | [] => .ret () w
  | c :: rest =>
    if c = 'h' then
      .exit 0 (usage w)
    else if c = 'p' then
      main.options { w with drivePreview := 1 } rest
    else
      .exit 1 (usage (w.call .getoptDiagnostic))

/-- The function `main`; the value returned is the exit status. -/
def main (env : Env) (w : World) (opts : List Char) : Result Nat :=
  (main.options w opts).bind fun _ w =>
  (setupAndRun env w).bind fun _ w =>
  .ret 0 w

/-! ## A concrete remote -/

/-- A remote as the program finds it: the usage constants of
`IOHIDUsageTables.h`, every call succeeding, six buttons among other
elements, and a run loop that returns after two notifications. -/
def Env.remote : Env :=
  { kHIDPage_GenericDesktop := 0x01
    kHIDUsage_GD_SystemAppMenu := 0x86
    kHIDUsage_GD_SystemMenu := 0x89
    kHIDUsage_GD_SystemMenuRight := 0x8A
    kHIDUsage_GD_SystemMenuLeft := 0x8B
    kHIDUsage_GD_SystemMenuUp := 0x8C
    kHIDUsage_GD_SystemMenuDown := 0x8D
    mach_error_string := fun _ => "(ipc/send) invalid destination port"
    hidService := 0x1503
    IOObjectGetClass := 0
    IOCreatePlugInInterfaceForService := 0
    QueryInterface := 0
    mallocOk := true
    copyMatchingElements := 0
    elements :=
      [ ⟨some 1, some 0x80, some 0x01⟩,
        ⟨some 2, some 0x86, some 0x01⟩,
        ⟨some 3, some 0x89, some 0x01⟩,
        ⟨some 4, some 0x8A, some 0x01⟩,
        ⟨some 5, some 0x8B, some 0x01⟩,
        ⟨some 6, some 0x8C, some 0x01⟩,
        ⟨some 7, some 0x8D, some 0x01⟩,
        ⟨some 8, some 0x8A, some 0x0C⟩,
        ⟨some 9, none, some 0x01⟩,
        ⟨none, some 0x30, some 0x01⟩ ]
    IOObjectRelease := 0
    open_setupAndRun := 0
    open_doRun := 0
    allocQueue := true
    createAsyncEventSource := 0
    setEventCallout := 0
    wakes := [[⟨4, 1⟩, ⟨4, 0⟩], [⟨6, 1⟩]]
    runLoopReturns := true }

/-! ## Vocabulary of the statements

Reading back a hexadecimal token, what a slot must hold, which calls touch
the device interface, and concrete environments for the examples. -/

/-- The value of one lower-case hexadecimal digit. -/
def hexDigitValue (c : Char) : Nat :=
  if c.toNat < 58 then c.toNat - 48 else c.toNat - 87

/-- The number written by a string of hexadecimal digits. -/
def hexValue (cs : List Char) : Nat :=
  cs.foldl (fun acc c => 16 * acc + hexDigitValue c) 0

/-- The characters `0`-`9` and `a`-`f`. -/
def isLowerHexDigit (c : Char) : Bool :=
  decide ((48 ≤ c.toNat ∧ c.toNat ≤ 57) ∨ (97 ≤ c.toNat ∧ c.toNat ≤ 102))

/-- The element has all three attributes readable, is on the Generic-Desktop
usage page and has usage code `u`. -/
def IOHIDElement.exposes (env : Env) (u : Int) (e : IOHIDElement) : Bool :=
  decide (e.cookie.isSome = true ∧ e.usagePage = some env.kHIDPage_GenericDesktop
    ∧ e.usage = some u)

/-- What a slot of the record must hold for the usage code `u`: the cookie of
an element of `es` that exposes `u`, and zero when `es` has no such element. -/
def holdsCookieOf (env : Env) (es : List IOHIDElement) (u : Int)
    (slot : IOHIDElementCookie) : Prop :=
  (∀ e ∈ es, e.exposes env u = true → ∀ number ∈ e.cookie, slot = toCookie number)
  ∧ ((∀ e ∈ es, e.exposes env u = false) → slot = 0)

instance (env : Env) (es : List IOHIDElement) (u : Int) (slot : IOHIDElementCookie) :
    Decidable (holdsCookieOf env es u slot) := by
  unfold holdsCookieOf; infer_instance

/-- The two role variables have the same values in both states. -/
def sameRoles (w w1 : World) : Prop :=
  w1.buttonNextID = w.buttonNextID ∧ w1.buttonPreviousID = w.buttonPreviousID

instance (w w1 : World) : Decidable (sameRoles w w1) := by
  unfold sameRoles; infer_instance

/-- The record that `getHIDCookies` returns for `Env.remote`. -/
def Env.remoteCookies : cookie_struct :=
  { gButtonCookie_SystemAppMenu := 2, gButtonCookie_SystemMenuSelect := 3,
    gButtonCookie_SystemMenuRight := 4, gButtonCookie_SystemMenuLeft := 5,
    gButtonCookie_SystemMenuUp := 6, gButtonCookie_SystemMenuDown := 7 }

/-- The state after `getHIDCookies` has run on `Env.remote` from the initial
state with the given `drivePreview`. -/
def World.resolved (drive : Int) : World :=
  { buttonNextID := 4, buttonPreviousID := 5, drivePreview := drive,
    trace := [.copyMatchingElements] }

/-- An element that the loop of `getHIDCookies` passes over: an attribute is
not readable, the usage page is not Generic Desktop, or the usage code is
none of the six. -/
def IOHIDElement.ignored (env : Env) (e : IOHIDElement) : Prop :=
  e.cookie = none ∨ e.usage = none ∨ e.usagePage = none
  ∨ e.usagePage ≠ some env.kHIDPage_GenericDesktop
  ∨ (e.usage ≠ some env.kHIDUsage_GD_SystemAppMenu
      ∧ e.usage ≠ some env.kHIDUsage_GD_SystemMenu
      ∧ e.usage ≠ some env.kHIDUsage_GD_SystemMenuRight
      ∧ e.usage ≠ some env.kHIDUsage_GD_SystemMenuLeft
      ∧ e.usage ≠ some env.kHIDUsage_GD_SystemMenuUp
      ∧ e.usage ≠ some env.kHIDUsage_GD_SystemMenuDown)

instance (env : Env) (e : IOHIDElement) : Decidable (e.ignored env) := by
  unfold IOHIDElement.ignored; infer_instance

/-- The six usage codes of the `switch` in `getHIDCookies`. -/
def Env.usageCodes (env : Env) : List Int :=
  [env.kHIDUsage_GD_SystemAppMenu, env.kHIDUsage_GD_SystemMenu,
    env.kHIDUsage_GD_SystemMenuRight, env.kHIDUsage_GD_SystemMenuLeft,
    env.kHIDUsage_GD_SystemMenuUp, env.kHIDUsage_GD_SystemMenuDown]

/-- An environment in which `IOCreatePlugInInterfaceForService` fails with
`kIOReturnError`. -/
def Env.plugInFails : Env :=
  { Env.remote with IOCreatePlugInInterfaceForService := -536870212 }

/-- An environment in which `QueryInterface` fails with the given result. -/
def Env.queryFails (result : Int) : Env :=
  { Env.remote with QueryInterface := result }

/-- The acquisition succeeded: the service is found and every call before
`open` returns success. -/
def Env.acquires (env : Env) : Prop :=
  env.hidService ≠ 0 ∧ env.IOObjectGetClass = kIOReturnSuccess
  ∧ env.IOCreatePlugInInterfaceForService = kIOReturnSuccess
  ∧ env.QueryInterface = S_OK ∧ env.mallocOk = true
  ∧ env.copyMatchingElements = kIOReturnSuccess
  ∧ env.IOObjectRelease = kIOReturnSuccess

instance (env : Env) : Decidable env.acquires := by
  unfold Env.acquires; infer_instance

/-- The arguments with which `setupAndRun` calls `doRun` when the
acquisition succeeded: the state after its own `open`, and the record
returned by `getHIDCookies`. -/
def setupAndRun.acquired (env : Env) (w : World) : World × cookie_struct :=
  let st := env.elements.foldl (getHIDCookies.step env)
    (((((((w.call (.IOServiceNameMatching "AppleIRController")).call
      .IOServiceGetMatchingService).call .IOObjectGetClass).call
      .IOCreatePlugInInterfaceForService).call .QueryInterface).call
      .plugInRelease).call .copyMatchingElements, cookie_struct.zero)
  (((st.1.call .IOObjectRelease).call (.deviceOpen 0)), st.2)

/-- The calls on the device interface: `open`, `close` and `Release`. -/
def Call.isDeviceCall : Call → Bool
  | .deviceOpen _ => true
  | .deviceClose => true
  | .deviceRelease => true
  | _ => false

/-- The calls on the device interface among the calls made so far. -/
def World.deviceCalls (w : World) : List Call :=
  w.trace.filter Call.isDeviceCall

/-! ## Lemmas on the drain loop -/

theorem loop_nonzero (ret : Int) (h : ret ≠ 0) (w : World) (q : Queue) :
    QueueCallbackFunction.loop ret w q = (w, q) := by
  rw [QueueCallbackFunction.loop]
  simp [h]

theorem loop_zero_nil (w : World) :
    QueueCallbackFunction.loop 0 w [] = (w.call (.getNextEvent 0 0 0), []) := by
  rw [QueueCallbackFunction.loop]
  simp only [getNextEvent, if_true]
  rw [loop_nonzero _ (by decide)]
  simp [kIOReturnUnderrun]

theorem loop_zero_cons (w : World) (e : IOHIDEventStruct) (rest : Queue) :
    QueueCallbackFunction.loop 0 w (e :: rest)
      = QueueCallbackFunction.loop 0
          (QueueCallbackFunction.dispatch (w.call (.getNextEvent 0 0 0)) e) rest := by
  rw [QueueCallbackFunction.loop]
  simp [getNextEvent, kIOReturnSuccess]

theorem QueueCallbackFunction_eq_foldl (w : World) (q : Queue) :
    QueueCallbackFunction w q
      = ((q.foldl (fun acc e =>
            QueueCallbackFunction.dispatch (acc.call (.getNextEvent 0 0 0)) e) w).call
          (.getNextEvent 0 0 0), []) := by
  unfold QueueCallbackFunction
  induction q generalizing w with
  | nil => simpa using loop_zero_nil w
  | cons e rest ih => rw [loop_zero_cons, ih]; rfl

/-- The calls made for one event do not depend on the calls made before. -/
theorem dispatch_trace (w : World) (e : IOHIDEventStruct) :
    QueueCallbackFunction.dispatch w e
      = { w with trace := w.trace
            ++ (QueueCallbackFunction.dispatch { w with trace := [] } e).trace } := by
  unfold QueueCallbackFunction.dispatch PreviewChangeSlide World.call
  split_ifs <;> simp

theorem dispatch_globals (w : World) (e : IOHIDEventStruct) :
    (QueueCallbackFunction.dispatch w e).buttonNextID = w.buttonNextID
    ∧ (QueueCallbackFunction.dispatch w e).buttonPreviousID = w.buttonPreviousID
    ∧ (QueueCallbackFunction.dispatch w e).drivePreview = w.drivePreview := by
  unfold QueueCallbackFunction.dispatch PreviewChangeSlide World.call
  split_ifs <;> simp

theorem QueueCallbackFunction_globals (w : World) (q : Queue) :
    (QueueCallbackFunction w q).1.buttonNextID = w.buttonNextID
    ∧ (QueueCallbackFunction w q).1.buttonPreviousID = w.buttonPreviousID
    ∧ (QueueCallbackFunction w q).1.drivePreview = w.drivePreview := by
  rw [QueueCallbackFunction_eq_foldl]
  induction q generalizing w with
  | nil => simp [World.call]
  | cons e rest ih =>
    have h := dispatch_globals (w.call (.getNextEvent 0 0 0)) e
    have := ih (QueueCallbackFunction.dispatch (w.call (.getNextEvent 0 0 0)) e)
    simp only [List.foldl_cons]
    simp only [World.call] at h this ⊢
    simp_all

theorem dispatch_calls (w : World) (e : IOHIDEventStruct) :
    (QueueCallbackFunction.dispatch { w with trace := [] } e).trace = []
    ∨ (QueueCallbackFunction.dispatch { w with trace := [] } e).trace = [.system cmdNextItem]
    ∨ (QueueCallbackFunction.dispatch { w with trace := [] } e).trace
        = [.system cmdPreviousItem]
    ∨ (QueueCallbackFunction.dispatch { w with trace := [] } e).trace
        = [.stdout (reportLine e)] := by
  unfold QueueCallbackFunction.dispatch PreviewChangeSlide World.call
  split_ifs <;> simp

theorem foldl_dispatch_trace (w : World) (q : Queue) :
    (q.foldl (fun acc e =>
        QueueCallbackFunction.dispatch (acc.call (.getNextEvent 0 0 0)) e) w).trace
      = w.trace ++ q.flatMap (fun e => Call.getNextEvent 0 0 0
          :: (QueueCallbackFunction.dispatch { w with trace := [] } e).trace) := by
  induction q generalizing w with
  | nil => simp
  | cons e rest ih =>
    simp only [List.foldl_cons, List.flatMap_cons]
    rw [ih, dispatch_trace]
    have hg := dispatch_globals (w.call (.getNextEvent 0 0 0)) e
    rw [dispatch_trace] at hg
    obtain ⟨h1, h2, h3⟩ := hg
    simp only [World.call] at h1 h2 h3 ⊢
    simp [h1, h2, h3]

theorem QueueCallbackFunction_trace (w : World) (q : Queue) :
    (QueueCallbackFunction w q).1.trace
      = w.trace
        ++ q.flatMap (fun e => Call.getNextEvent 0 0 0
            :: (QueueCallbackFunction.dispatch { w with trace := [] } e).trace)
        ++ [Call.getNextEvent 0 0 0] := by
  rw [QueueCallbackFunction_eq_foldl]
  show (List.foldl _ w q).trace ++ [Call.getNextEvent 0 0 0] = _
  rw [foldl_dispatch_trace]

/-- C6: for every queue content `q`, one call of `QueueCallbackFunction` is a
total computation that polls `getNextEvent` with zero `maxTime` and zero
timeout, handles the events of `q` once each in queue order (one poll before
each), makes one last poll that finds the queue empty, and leaves the queue
empty; it makes `q.length + 1` polls, all with zero timeouts. -/
theorem C6_callback_drains_queue_in_order (w : World) (q : Queue) :
    QueueCallbackFunction w q
        = ((q.foldl (fun acc e =>
              QueueCallbackFunction.dispatch (acc.call (.getNextEvent 0 0 0)) e) w).call
            (.getNextEvent 0 0 0), [])
    ∧ (QueueCallbackFunction w q).1.trace
        = w.trace
          ++ q.flatMap (fun e => Call.getNextEvent 0 0 0
              :: (QueueCallbackFunction.dispatch { w with trace := [] } e).trace)
          ++ [Call.getNextEvent 0 0 0]
    ∧ (QueueCallbackFunction w q).2 = []
    ∧ ((QueueCallbackFunction w q).1.trace.drop w.trace.length).count
        (Call.getNextEvent 0 0 0) = q.length + 1
    ∧ (∀ a b c, Call.getNextEvent a b c
          ∈ (QueueCallbackFunction w q).1.trace.drop w.trace.length
        → a = 0 ∧ b = 0 ∧ c = 0) := by
  refine ⟨QueueCallbackFunction_eq_foldl w q, QueueCallbackFunction_trace w q, ?_, ?_, ?_⟩
  · rw [QueueCallbackFunction_eq_foldl]
  · rw [QueueCallbackFunction_trace, List.append_assoc, List.drop_left]
    induction q with
    | nil => simp
    | cons e rest ih =>
      simp only [List.flatMap_cons, List.cons_append, List.append_assoc, List.length_cons]
      rw [List.count_cons_self, List.count_append, ih]
      rcases dispatch_calls w e with h | h | h | h <;> rw [h] <;> simp
  · intro a b c
    rw [QueueCallbackFunction_trace, List.append_assoc, List.drop_left]
    intro hm
    simp only [List.mem_append, List.mem_flatMap, List.mem_cons, List.mem_singleton,
      Call.getNextEvent.injEq, List.not_mem_nil, or_false] at hm
    rcases hm with ⟨e, -, h | h⟩ | h
    · exact h
    · rcases dispatch_calls w e with h1 | h1 | h1 | h1 <;> rw [h1] at h <;> simp at h
    · exact h

/-! ## Lemmas on the hexadecimal conversion -/

theorem digitChar_hex : ∀ d, d < 16 →
    hexDigitValue (Nat.digitChar d) = d ∧ isLowerHexDigit (Nat.digitChar d) = true
    ∧ (d ≠ 0 → Nat.digitChar d ≠ '0') := by
  decide

theorem toDigitsCore_acc (fuel n : Nat) (ds : List Char) :
    Nat.toDigitsCore 16 fuel n ds = Nat.toDigitsCore 16 fuel n [] ++ ds := by
  induction fuel generalizing n ds with
  | zero => simp [Nat.toDigitsCore]
  | succ k ih =>
    simp only [Nat.toDigitsCore]
    split_ifs
    · simp
    · rw [ih (n / 16) (_ :: ds), ih (n / 16) [_]]
      simp

theorem hexValue_append_singleton (cs : List Char) (c : Char) :
    hexValue (cs ++ [c]) = 16 * hexValue cs + hexDigitValue c := by
  simp [hexValue, List.foldl_append]

theorem toDigitsCore_hex (fuel : Nat) : ∀ n, n < fuel →
    hexValue (Nat.toDigitsCore 16 fuel n []) = n
    ∧ (∀ c ∈ Nat.toDigitsCore 16 fuel n [], isLowerHexDigit c = true)
    ∧ (n ≠ 0 → ∃ c rest, Nat.toDigitsCore 16 fuel n [] = c :: rest ∧ c ≠ '0') := by
  induction fuel with
  | zero => intro n h; omega
  | succ k ih =>
    intro n hn
    have hd := digitChar_hex (n % 16) (Nat.mod_lt _ (by norm_num))
    simp only [Nat.toDigitsCore]
    by_cases h0 : n / 16 = 0
    · simp only [h0, if_true]
      have hlt : n < 16 := by omega
      have hm : n % 16 = n := Nat.mod_eq_of_lt hlt
      rw [hm] at hd ⊢
      refine ⟨?_, ?_, ?_⟩
      · simp [hexValue, hd.1]
      · intro c hc
        simp only [List.mem_singleton] at hc
        rw [hc]; exact hd.2.1
      · intro hne
        exact ⟨_, [], rfl, hd.2.2 hne⟩
    · simp only [h0, if_false]
      rw [toDigitsCore_acc]
      have hk : n / 16 < k := by omega
      obtain ⟨h1, h2, h3⟩ := ih (n / 16) hk
      refine ⟨?_, ?_, ?_⟩
      · rw [hexValue_append_singleton, h1, hd.1]; omega
      · intro c hc
        simp only [List.mem_append, List.mem_singleton] at hc
        rcases hc with hc | hc
        · exact h2 c hc
        · rw [hc]; exact hd.2.1
      · intro _
        obtain ⟨c, rest, hcr, hc0⟩ := h3 h0
        exact ⟨c, rest ++ [Nat.digitChar (n % 16)], by rw [hcr]; rfl, hc0⟩

theorem toDigits_hex (n : Nat) :
    hexValue (Nat.toDigits 16 n) = n
    ∧ (∀ c ∈ Nat.toDigits 16 n, isLowerHexDigit c = true)
    ∧ (n ≠ 0 → ∃ c rest, Nat.toDigits 16 n = c :: rest ∧ c ≠ '0') :=
  toDigitsCore_hex (n + 1) n (Nat.lt_succ_self n)

theorem fmt_hash_lx_no_newline (c : IOHIDElementCookie) :
    (fmt_hash_lx c).data.count '\n' = 0 := by
  unfold fmt_hash_lx
  simp only
  split_ifs with h
  · decide
  · rw [String.data_append]
    rw [List.count_append]
    have h2 : (String.mk (Nat.toDigits 16 (c % 2 ^ 64))).data.count '\n' = 0 := by
      rw [List.count_eq_zero]
      intro hm
      have := (toDigits_hex (c % 2 ^ 64)).2.1 _ hm
      revert this
      decide
    rw [h2]
    decide

theorem reportLine_one_newline (e : IOHIDEventStruct) :
    (reportLine e).data.count '\n' = 1 := by
  unfold reportLine edgeLabel
  simp only [String.data_append, List.count_append, fmt_hash_lx_no_newline]
  split_ifs <;> decide

/-- C3: in report mode (`drivePreview = 0`), for every queue content
`QueueCallbackFunction` writes one `printf` text per event, in order and for
every cookie, and makes no `system` call; each text is one line (its only
newline is the last character) made of the cookie, a space and the edge
label, and the label is "pressed" exactly when the value is nonzero and
"depressed" exactly when it is zero. -/
theorem C3_report_mode_prints_every_event (w : World) (q : Queue)
    (hreport : w.drivePreview = 0) :
    (QueueCallbackFunction w q).1.trace
        = w.trace
          ++ q.flatMap (fun e => [Call.getNextEvent 0 0 0, Call.stdout (reportLine e)])
          ++ [Call.getNextEvent 0 0 0]
    ∧ (∀ cmd, Call.system cmd ∉ (QueueCallbackFunction w q).1.trace.drop w.trace.length)
    ∧ (∀ e : IOHIDEventStruct,
        reportLine e = fmt_hash_lx e.elementCookie ++ " " ++ edgeLabel e.value ++ "\n"
        ∧ (reportLine e).data.count '\n' = 1
        ∧ (edgeLabel e.value = "pressed" ↔ e.value ≠ 0)
        ∧ (edgeLabel e.value = "depressed" ↔ e.value = 0)) := by
  have htrace : (QueueCallbackFunction w q).1.trace
        = w.trace
          ++ q.flatMap (fun e => [Call.getNextEvent 0 0 0, Call.stdout (reportLine e)])
          ++ [Call.getNextEvent 0 0 0] := by
    rw [QueueCallbackFunction_trace]
    congr 2
    apply List.flatMap_congr
    intro e _
    simp [QueueCallbackFunction.dispatch, hreport, World.call]
  refine ⟨htrace, ?_, ?_⟩
  · intro cmd
    rw [htrace, List.append_assoc, List.drop_left]
    simp
  · intro e
    refine ⟨rfl, reportLine_one_newline e, ?_, ?_⟩
    · unfold edgeLabel
      split_ifs with h
      · simp [h]
      · simp only [h, iff_false]; decide
    · unfold edgeLabel
      split_ifs with h
      · simp only [h, iff_false]; decide
      · simp only [ne_eq, not_not] at h
        simp [h]

/-- C3 at a concrete queue: two events in report mode. -/
theorem C3_report_mode_prints_every_event_witness :
    (QueueCallbackFunction World.initial [⟨4, 1⟩, ⟨4, 0⟩]).1.trace
      = [Call.getNextEvent 0 0 0, Call.stdout "0x4 pressed\n",
          Call.getNextEvent 0 0 0, Call.stdout "0x4 depressed\n",
          Call.getNextEvent 0 0 0] :=
  (C3_report_mode_prints_every_event World.initial [⟨4, 1⟩, ⟨4, 0⟩] (by decide)).1

/-- C2: in drive mode (`drivePreview` nonzero), when every event of the queue
is a release edge (value 0, any cookie) or has a cookie different from both
`buttonNextID` and `buttonPreviousID`, `QueueCallbackFunction` calls nothing
but `getNextEvent`: no `system` call and nothing on standard output. -/
theorem C2_drive_mode_ignores_other_events (w : World) (q : Queue)
    (hdrive : w.drivePreview ≠ 0)
    (hq : ∀ e ∈ q, e.value = 0
      ∨ (e.elementCookie ≠ w.buttonNextID ∧ e.elementCookie ≠ w.buttonPreviousID)) :
    (QueueCallbackFunction w q).1.trace
        = w.trace ++ List.replicate (q.length + 1) (Call.getNextEvent 0 0 0)
    ∧ (∀ cmd, Call.system cmd ∉ (QueueCallbackFunction w q).1.trace.drop w.trace.length)
    ∧ (∀ text, Call.stdout text ∉ (QueueCallbackFunction w q).1.trace.drop w.trace.length) := by
  have htrace : (QueueCallbackFunction w q).1.trace
        = w.trace ++ List.replicate (q.length + 1) (Call.getNextEvent 0 0 0) := by
    rw [QueueCallbackFunction_trace, List.append_assoc]
    congr 1
    induction q with
    | nil => rfl
    | cons e rest ih =>
      have he := hq e (List.mem_cons_self e rest)
      have hd : (QueueCallbackFunction.dispatch { w with trace := [] } e).trace = [] := by
        unfold QueueCallbackFunction.dispatch PreviewChangeSlide
        rcases he with h | ⟨h1, h2⟩
        · simp [hdrive, h]
        · simp [hdrive, h1, h2]
      rw [List.flatMap_cons, hd, List.append_assoc,
        ih (fun x hx => hq x (List.mem_cons_of_mem e hx))]
      simp [List.replicate_succ]
  refine ⟨htrace, ?_, ?_⟩
  · intro cmd
    rw [htrace, List.drop_left]
    simp [List.mem_replicate]
  · intro text
    rw [htrace, List.drop_left]
    simp [List.mem_replicate]

/-- C2 at a concrete queue: a release of the "next" button and a press of
another button, in drive mode. -/
theorem C2_drive_mode_ignores_other_events_witness :
    (QueueCallbackFunction
        { buttonNextID := 4, buttonPreviousID := 5, drivePreview := 1, trace := [] }
        [⟨4, 0⟩, ⟨6, 1⟩]).1.trace
      = [Call.getNextEvent 0 0 0, Call.getNextEvent 0 0 0, Call.getNextEvent 0 0 0] :=
  (C2_drive_mode_ignores_other_events
    { buttonNextID := 4, buttonPreviousID := 5, drivePreview := 1, trace := [] }
    [⟨4, 0⟩, ⟨6, 1⟩] (by decide) (by decide)).1

/-- C4 as stated fails: for the zero cookie the line is `0 pressed`, which
does not start with `0x`; and the hexadecimal token has no fixed width, the
cookies 1 and 16 giving `0x1` and `0x10`. -/
theorem C4_counterexample_zero_cookie_and_width :
    QueueCallbackFunction.dispatch World.initial ⟨0, 1⟩
        = World.initial.call (.stdout "0 pressed\n")
    ∧ (¬ ∃ rest : String, reportLine ⟨0, 1⟩ = "0x" ++ rest)
    ∧ reportLine ⟨1, 1⟩ = "0x1 pressed\n"
    ∧ reportLine ⟨16, 1⟩ = "0x10 pressed\n" := by
  refine ⟨by decide, ?_, by decide, by decide⟩
  rintro ⟨rest, h⟩
  have h2 := congrArg String.data h
  rw [String.data_append] at h2
  have h3 : (reportLine ⟨0, 1⟩).data = ['0', ' ', 'p', 'r', 'e', 's', 's', 'e', 'd', '\n'] := by
    decide
  rw [h3] at h2
  simp at h2

/-- C4, amended: in report mode the text printed for an event is the
conversion `%#lx` of the cookie, one space, the edge label and a newline.
For a nonzero cookie the conversion is `0x` followed by the cookie in
lower-case hexadecimal digits without padding and without leading zero (so
its width varies with the cookie); for the zero cookie it is `0` alone. -/
theorem C4_report_line_format (w : World) (event : IOHIDEventStruct)
    (hreport : w.drivePreview = 0) :
    QueueCallbackFunction.dispatch w event = w.call (.stdout (reportLine event))
    ∧ (edgeLabel event.value = "pressed" ∨ edgeLabel event.value = "depressed")
    ∧ (event.elementCookie % 2 ^ 64 ≠ 0 →
        ∃ first rest,
          reportLine event
            = "0x" ++ String.mk (first :: rest) ++ " " ++ edgeLabel event.value ++ "\n"
          ∧ first ≠ '0'
          ∧ (∀ c ∈ first :: rest, isLowerHexDigit c = true)
          ∧ hexValue (first :: rest) = event.elementCookie % 2 ^ 64)
    ∧ (event.elementCookie % 2 ^ 64 = 0 →
        reportLine event = "0 " ++ edgeLabel event.value ++ "\n") := by
  refine ⟨?_, ?_, ?_, ?_⟩
  · simp [QueueCallbackFunction.dispatch, hreport]
  · unfold edgeLabel
    split_ifs <;> simp
  · intro hne
    obtain ⟨hv, hall, hhead⟩ := toDigits_hex (event.elementCookie % 2 ^ 64)
    obtain ⟨first, rest, hfr, hf0⟩ := hhead hne
    refine ⟨first, rest, ?_, hf0, ?_, ?_⟩
    · unfold reportLine fmt_hash_lx
      simp only [hne, if_false, hfr]
    · rw [← hfr]; exact hall
    · rw [← hfr]; exact hv
  · intro h0
    unfold reportLine fmt_hash_lx
    simp only [h0, if_true]
    rfl

/-- C4 at a concrete event: cookie 26, pressed. -/
theorem C4_report_line_format_witness :
    QueueCallbackFunction.dispatch World.initial ⟨26, 1⟩
      = World.initial.call (.stdout "0x1a pressed\n") :=
  (C4_report_line_format World.initial ⟨26, 1⟩ (by decide)).1

theorem step_trace (env : Env) (st : World × cookie_struct) (e : IOHIDElement) :
    (getHIDCookies.step env st e).1.trace = st.1.trace
    ∧ (getHIDCookies.step env st e).1.drivePreview = st.1.drivePreview := by
  unfold getHIDCookies.step
  split <;> [simp; skip]
  split <;> [simp; skip]
  split <;> [simp; skip]
  split_ifs <;> simp

/-- The invariant of the loop: each role variable equals its slot. -/
theorem step_roles (env : Env) (st : World × cookie_struct) (e : IOHIDElement)
    (h : st.1.buttonNextID = st.2.gButtonCookie_SystemMenuRight
      ∧ st.1.buttonPreviousID = st.2.gButtonCookie_SystemMenuLeft) :
    (getHIDCookies.step env st e).1.buttonNextID
        = (getHIDCookies.step env st e).2.gButtonCookie_SystemMenuRight
    ∧ (getHIDCookies.step env st e).1.buttonPreviousID
        = (getHIDCookies.step env st e).2.gButtonCookie_SystemMenuLeft := by
  unfold getHIDCookies.step
  split <;> [exact h; skip]
  split <;> [exact h; skip]
  split <;> [exact h; skip]
  split_ifs <;> simp [h.1, h.2]

theorem foldl_step_inv (env : Env) (es : List IOHIDElement) (st : World × cookie_struct)
    (h : st.1.buttonNextID = st.2.gButtonCookie_SystemMenuRight
      ∧ st.1.buttonPreviousID = st.2.gButtonCookie_SystemMenuLeft) :
    ((es.foldl (getHIDCookies.step env) st).1.buttonNextID
        = (es.foldl (getHIDCookies.step env) st).2.gButtonCookie_SystemMenuRight
      ∧ (es.foldl (getHIDCookies.step env) st).1.buttonPreviousID
        = (es.foldl (getHIDCookies.step env) st).2.gButtonCookie_SystemMenuLeft)
    ∧ (es.foldl (getHIDCookies.step env) st).1.trace = st.1.trace
    ∧ (es.foldl (getHIDCookies.step env) st).1.drivePreview = st.1.drivePreview := by
  induction es generalizing st with
  | nil => exact ⟨h, rfl, rfl⟩
  | cons e rest ih =>
    simp only [List.foldl_cons]
    obtain ⟨h1, h2, h3⟩ := ih (getHIDCookies.step env st e) (step_roles env st e h)
    exact ⟨h1, h2.trans (step_trace env st e).1, h3.trans (step_trace env st e).2⟩

/-- After `getHIDCookies` returns from a state whose role variables are
zero, each role variable equals its slot of the record returned. -/
theorem getHIDCookies_roles (env : Env) (w0 : World) (handle : InterfaceRef)
    (cookies : cookie_struct) (w : World)
    (hn : w0.buttonNextID = 0) (hp : w0.buttonPreviousID = 0)
    (hget : getHIDCookies env w0 handle = .ret cookies w) :
    w.buttonNextID = cookies.gButtonCookie_SystemMenuRight
    ∧ w.buttonPreviousID = cookies.gButtonCookie_SystemMenuLeft
    ∧ w.drivePreview = w0.drivePreview := by
  unfold getHIDCookies at hget
  by_cases hm : env.mallocOk = true
  · by_cases hh : handle = .NULL ∨ handle = .nullTarget
    · simp only [hm, hh, Bool.not_true, if_true, Bool.false_eq_true, if_false,
        Result.ret.injEq] at hget
      obtain ⟨hc, hw⟩ := hget
      subst hc hw
      exact ⟨hn, hp, rfl⟩
    · by_cases hr : env.copyMatchingElements = kIOReturnSuccess
      · simp only [hm, hh, hr, Bool.not_true, Bool.false_eq_true, if_false, ne_eq,
          not_true_eq_false, Result.ret.injEq] at hget
        obtain ⟨hc, hw⟩ := hget
        have := foldl_step_inv env env.elements
          (w0.call .copyMatchingElements, cookie_struct.zero) ⟨hn, hp⟩
        rw [← hc, ← hw]
        exact ⟨this.1.1, this.1.2, this.2.2⟩
      · simp [hm, hh, hr] at hget
  · simp [hm] at hget

theorem sameRoles_call (w0 w : World) (c : Call) :
    sameRoles w0 (w.call c) ↔ sameRoles w0 w := Iff.rfl

theorem PreviewChangeSlide_roles {w0 w : World} (h : sameRoles w0 w)
    (button : IOHIDElementCookie) : sameRoles w0 (PreviewChangeSlide w button) := by
  unfold PreviewChangeSlide
  split_ifs <;> exact h

theorem QueueCallbackFunction_roles {w0 w : World} (h : sameRoles w0 w) (q : Queue) :
    sameRoles w0 (QueueCallbackFunction w q).1 :=
  ⟨(QueueCallbackFunction_globals w q).1.trans h.1,
    (QueueCallbackFunction_globals w q).2.1.trans h.2⟩

theorem print_errmsg_if_io_err_roles {w0 w : World} (h : sameRoles w0 w) (env : Env)
    (expr : Int) (msg : String) :
    sameRoles w0 (print_errmsg_if_io_err env w expr msg).world := by
  unfold print_errmsg_if_io_err
  simp only
  split_ifs <;> exact h

theorem print_errmsg_if_err_roles {w0 w : World} (h : sameRoles w0 w) (expr : Int)
    (msg : String) : sameRoles w0 (print_errmsg_if_err w expr msg).world := by
  unfold print_errmsg_if_err
  split_ifs <;> exact h

/-- Sequencing keeps the role variables when both parts do. -/
theorem bind_roles {α β : Type} {w0 : World} (r : Result α) (f : α → World → Result β)
    (hr : sameRoles w0 r.world)
    (hf : ∀ a w1, sameRoles w0 w1 → sameRoles w0 (f a w1).world) :
    sameRoles w0 (r.bind f).world := by
  cases r with
  | ret a w1 => exact hf a w1 hr
  | exit s w1 => exact hr
  | blocked w1 => exact hr

theorem addQueueCallbacks_roles {w0 w : World} (h : sameRoles w0 w) (env : Env) :
    sameRoles w0 (addQueueCallbacks env w).world := by
  unfold addQueueCallbacks
  simp only
  split_ifs <;> exact h

theorem wakes_roles {w0 : World} (wakes : List Queue) (w : World) (h : sameRoles w0 w) :
    sameRoles w0 (wakes.foldl (fun acc q => (QueueCallbackFunction acc q).1) w) := by
  induction wakes generalizing w with
  | nil => exact h
  | cons q rest ih => exact ih _ (QueueCallbackFunction_roles h q)

theorem CFRunLoopRun_roles {w0 w : World} (h : sameRoles w0 w) (env : Env) :
    sameRoles w0 (CFRunLoopRun env w).world := by
  unfold CFRunLoopRun
  simp only
  split_ifs
  · exact wakes_roles _ _ h
  · exact wakes_roles _ _ h
  · exact h

theorem processQueue_roles {w0 w : World} (h : sameRoles w0 w) (env : Env)
    (cookies : cookie_struct) : sameRoles w0 (processQueue env w cookies).world := by
  unfold processQueue
  by_cases ha : (!env.allocQueue) = true
  · simp only [ha, if_true]
    exact h
  · simp only [ha, if_false]
    apply bind_roles
    · refine addQueueCallbacks_roles ?_ env
      simp only [sameRoles_call]
      exact h
    · intro _ w1 h1
      apply bind_roles
      · refine CFRunLoopRun_roles ?_ env
        exact h1
      · intro _ w2 h2
        exact h2

theorem doRun_roles {w0 w : World} (h : sameRoles w0 w) (env : Env)
    (cookies : cookie_struct) : sameRoles w0 (doRun env w cookies).world := by
  unfold doRun
  apply bind_roles
  · refine processQueue_roles ?_ env cookies
    exact h
  · intro _ w1 h1
    simp only [Result.world]
    split_ifs <;> exact h1

theorem createHIDDeviceInterface_roles {w0 w : World} (h : sameRoles w0 w) (env : Env)
    (hdi : InterfaceRef) : sameRoles w0 (createHIDDeviceInterface env w hdi).world := by
  unfold createHIDDeviceInterface
  apply bind_roles
  · refine print_errmsg_if_io_err_roles ?_ env _ _
    exact h
  · intro _ w1 h1
    by_cases hc : env.IOCreatePlugInInterfaceForService ≠ kIOReturnSuccess
    · rw [if_pos hc]
      exact h1
    · rw [if_neg hc]
      apply bind_roles
      · refine print_errmsg_if_err_roles ?_ _ _
        exact h1
      · intro _ w2 h2
        exact h2

theorem usage_roles {w0 w : World} (h : sameRoles w0 w) : sameRoles w0 (usage w) := h

theorem main_options_roles {w0 : World} (opts : List Char) (w : World) (h : sameRoles w0 w) :
    sameRoles w0 (main.options w opts).world := by
  induction opts generalizing w with
  | nil => exact h
  | cons c rest ih =>
    unfold main.options
    split_ifs
    · exact h
    · exact ih _ h
    · exact h

/-- C1 as stated fails when the Right and Left slots hold the same cookie:
for a device with no elements both slots are zero, and a press event with
cookie zero (the Left slot) makes `QueueCallbackFunction` run the "Next Item"
command, not the "Previous Item" command. -/
theorem C1_counterexample_equal_slots :
    getHIDCookies { Env.remote with elements := [] }
        { World.initial with drivePreview := 1 } .object
      = .ret cookie_struct.zero
          { buttonNextID := 0, buttonPreviousID := 0, drivePreview := 1,
            trace := [.copyMatchingElements] }
    ∧ (0 : IOHIDElementCookie) = cookie_struct.zero.gButtonCookie_SystemMenuLeft
    ∧ (QueueCallbackFunction
          { buttonNextID := 0, buttonPreviousID := 0, drivePreview := 1,
            trace := [.copyMatchingElements] } [⟨0, 1⟩]).1.trace
        = [.copyMatchingElements, .getNextEvent 0 0 0, .system cmdNextItem,
            .getNextEvent 0 0 0]
    ∧ cmdNextItem ≠ cmdPreviousItem := by
  refine ⟨by decide, rfl, ?_, by decide⟩
  rw [QueueCallbackFunction_eq_foldl]
  rfl

/-- C1, amended: in drive mode, with the record `cookies` returned by
`getHIDCookies` from a state whose role variables were zero, and in any
later state `w1` with the same role variables, a press event (value
nonzero) whose cookie equals the Right slot makes `QueueCallbackFunction`
call `system` exactly once, with the "Next Item" command; a press event
whose cookie equals the Left slot makes it call `system` exactly once with
the "Previous Item" command provided the Left slot differs from the Right
slot. -/
theorem C1_drive_mode_forwards_next_and_previous (env : Env) (w0 : World)
    (handle : InterfaceRef) (cookies : cookie_struct) (w w1 : World)
    (event : IOHIDEventStruct)
    (hn : w0.buttonNextID = 0) (hp : w0.buttonPreviousID = 0)
    (hget : getHIDCookies env w0 handle = .ret cookies w)
    (hroles : sameRoles w w1) (hdrive : w1.drivePreview ≠ 0)
    (hv : event.value ≠ 0) :
    (event.elementCookie = cookies.gButtonCookie_SystemMenuRight →
      (QueueCallbackFunction w1 [event]).1.trace
        = w1.trace ++ [.getNextEvent 0 0 0, .system cmdNextItem, .getNextEvent 0 0 0])
    ∧ (event.elementCookie = cookies.gButtonCookie_SystemMenuLeft →
        cookies.gButtonCookie_SystemMenuLeft ≠ cookies.gButtonCookie_SystemMenuRight →
        (QueueCallbackFunction w1 [event]).1.trace
          = w1.trace
            ++ [.getNextEvent 0 0 0, .system cmdPreviousItem, .getNextEvent 0 0 0]) := by
  obtain ⟨h1, h2, -⟩ := getHIDCookies_roles env w0 handle cookies w hn hp hget
  obtain ⟨r1, r2⟩ := hroles
  rw [QueueCallbackFunction_trace]
  constructor
  · intro hc
    have : event.elementCookie = w1.buttonNextID := by rw [r1, h1, hc]
    simp [QueueCallbackFunction.dispatch, PreviewChangeSlide, World.call, hdrive, hv, this]
  · intro hc hne
    have hL : event.elementCookie = w1.buttonPreviousID := by rw [r2, h2, hc]
    have hR : ¬ w1.buttonPreviousID = w1.buttonNextID := by rw [r1, r2, h1, h2]; exact hne
    simp [QueueCallbackFunction.dispatch, PreviewChangeSlide, World.call, hdrive, hv, hL, hR]

/-- C1 at the concrete remote: a press of the Left button (cookie 5) in drive
mode runs the "Previous Item" command once. -/
theorem C1_drive_mode_forwards_next_and_previous_witness :
    getHIDCookies Env.remote { World.initial with drivePreview := 1 } .object
      = .ret Env.remoteCookies (World.resolved 1)
    ∧ (QueueCallbackFunction (World.resolved 1) [⟨5, 1⟩]).1.trace
      = [.copyMatchingElements, .getNextEvent 0 0 0, .system cmdPreviousItem,
          .getNextEvent 0 0 0] :=
  ⟨by decide,
    (C1_drive_mode_forwards_next_and_previous Env.remote
      { World.initial with drivePreview := 1 } .object Env.remoteCookies
      (World.resolved 1) (World.resolved 1) ⟨5, 1⟩
      rfl rfl (by decide) (by decide) (by decide) (by decide)).2 rfl (by decide)⟩

theorem step_ignored (env : Env) (st : World × cookie_struct) (e : IOHIDElement)
    (h : e.ignored env) : getHIDCookies.step env st e = st := by
  unfold getHIDCookies.step
  rcases e with ⟨c, u, p⟩
  unfold IOHIDElement.ignored at h
  cases c with
  | none => rfl
  | some c =>
    cases u with
    | none => rfl
    | some u =>
      cases p with
      | none => rfl
      | some p =>
        simp only [Option.some.injEq, ne_eq, false_or, reduceCtorEq] at h
        rcases h with h | ⟨h1, h2, h3, h4, h5, h6⟩
        · simp [h]
        · simp [h1, h2, h3, h4, h5, h6]

/-- The slot read by `get` follows the elements exposing `u`: an element
that does not expose `u` leaves the slot, an element that exposes it sets the
slot to its cookie. -/
theorem foldl_slot (env : Env) (get : cookie_struct → IOHIDElementCookie) (u : Int)
    (hskip : ∀ st e, e.exposes env u = false →
      get (getHIDCookies.step env st e).2 = get st.2)
    (hset : ∀ st e number, e.exposes env u = true → e.cookie = some number →
      get (getHIDCookies.step env st e).2 = toCookie number)
    (es : List IOHIDElement) (hcount : es.countP (IOHIDElement.exposes env u) ≤ 1)
    (st : World × cookie_struct) :
    (∀ e ∈ es, e.exposes env u = true → ∀ number ∈ e.cookie,
        get (es.foldl (getHIDCookies.step env) st).2 = toCookie number)
    ∧ ((∀ e ∈ es, e.exposes env u = false) →
        get (es.foldl (getHIDCookies.step env) st).2 = get st.2) := by
  induction es generalizing st with
  | nil => simp
  | cons e rest ih =>
    simp only [List.foldl_cons]
    by_cases hc : e.exposes env u = true
    · rw [List.countP_cons_of_pos _ _ hc] at hcount
      have hrest : rest.countP (IOHIDElement.exposes env u) = 0 := by omega
      have hnone : ∀ x ∈ rest, x.exposes env u = false := by
        intro x hx
        rw [List.countP_eq_zero] at hrest
        simpa using hrest x hx
      have ih1 := ih (by omega) (getHIDCookies.step env st e)
      constructor
      · intro x hx hxc number hnum
        rcases List.mem_cons.mp hx with hxe | hxr
        · subst hxe
          rw [ih1.2 hnone]
          exact hset st x number hc hnum
        · have := hnone x hxr
          rw [this] at hxc
          exact absurd hxc (by decide)
      · intro hall
        have := hall e (List.mem_cons_self e rest)
        rw [this] at hc
        exact absurd hc (by decide)
    · have hc2 : e.exposes env u = false := by simpa using hc
      rw [List.countP_cons_of_neg _ _ hc] at hcount
      have ih1 := ih hcount (getHIDCookies.step env st e)
      constructor
      · intro x hx hxc number hnum
        rcases List.mem_cons.mp hx with hxe | hxr
        · subst hxe; exact absurd hxc hc
        · exact ih1.1 x hxr hxc number hnum
      · intro hall
        rw [ih1.2 (fun x hx => hall x (List.mem_cons_of_mem e hx))]
        exact hskip st e hc2

theorem wellFormed_ne (env : Env) (h : env.WellFormed) :
    env.kHIDUsage_GD_SystemAppMenu ≠ env.kHIDUsage_GD_SystemMenu
    ∧ env.kHIDUsage_GD_SystemAppMenu ≠ env.kHIDUsage_GD_SystemMenuRight
    ∧ env.kHIDUsage_GD_SystemAppMenu ≠ env.kHIDUsage_GD_SystemMenuLeft
    ∧ env.kHIDUsage_GD_SystemAppMenu ≠ env.kHIDUsage_GD_SystemMenuUp
    ∧ env.kHIDUsage_GD_SystemAppMenu ≠ env.kHIDUsage_GD_SystemMenuDown
    ∧ env.kHIDUsage_GD_SystemMenu ≠ env.kHIDUsage_GD_SystemMenuRight
    ∧ env.kHIDUsage_GD_SystemMenu ≠ env.kHIDUsage_GD_SystemMenuLeft
    ∧ env.kHIDUsage_GD_SystemMenu ≠ env.kHIDUsage_GD_SystemMenuUp
    ∧ env.kHIDUsage_GD_SystemMenu ≠ env.kHIDUsage_GD_SystemMenuDown
    ∧ env.kHIDUsage_GD_SystemMenuRight ≠ env.kHIDUsage_GD_SystemMenuLeft
    ∧ env.kHIDUsage_GD_SystemMenuRight ≠ env.kHIDUsage_GD_SystemMenuUp
    ∧ env.kHIDUsage_GD_SystemMenuRight ≠ env.kHIDUsage_GD_SystemMenuDown
    ∧ env.kHIDUsage_GD_SystemMenuLeft ≠ env.kHIDUsage_GD_SystemMenuUp
    ∧ env.kHIDUsage_GD_SystemMenuLeft ≠ env.kHIDUsage_GD_SystemMenuDown
    ∧ env.kHIDUsage_GD_SystemMenuUp ≠ env.kHIDUsage_GD_SystemMenuDown := by
  unfold Env.WellFormed at h
  simp only [List.nodup_cons, List.mem_cons, List.mem_singleton, List.not_mem_nil, not_or,
    List.nodup_nil, and_true, not_false_eq_true] at h
  tauto

theorem skip_AppMenu (env : Env) (st : World × cookie_struct) (e : IOHIDElement)
    (h : e.exposes env env.kHIDUsage_GD_SystemAppMenu = false) :
    (getHIDCookies.step env st e).2.gButtonCookie_SystemAppMenu
      = st.2.gButtonCookie_SystemAppMenu := by
  unfold getHIDCookies.step
  rcases e with ⟨c, u, p⟩
  simp only [IOHIDElement.exposes, decide_eq_false_iff_not] at h
  cases c <;> cases u <;> cases p <;> try rfl
  simp only
  split_ifs <;> simp_all

theorem set_AppMenu (env : Env) (hwf : env.WellFormed) (st : World × cookie_struct)
    (e : IOHIDElement) (number : Int)
    (h : e.exposes env env.kHIDUsage_GD_SystemAppMenu = true) (hc : e.cookie = some number) :
    (getHIDCookies.step env st e).2.gButtonCookie_SystemAppMenu = toCookie number := by
  obtain ⟨a1, a2, a3, a4, a5, a6, a7, a8, a9, a10, a11, a12, a13, a14, a15⟩ := wellFormed_ne env hwf
  unfold getHIDCookies.step
  rcases e with ⟨c, u, p⟩
  simp only [IOHIDElement.exposes, decide_eq_true_eq] at h
  obtain ⟨-, h1, h2⟩ := h
  simp only at hc h1 h2
  subst hc h1 h2
  simp [a1.symm, a2.symm, a3.symm, a4.symm, a5.symm, a6.symm, a7.symm, a8.symm, a9.symm, a10.symm, a11.symm, a12.symm, a13.symm, a14.symm, a15.symm]

theorem skip_Select (env : Env) (st : World × cookie_struct) (e : IOHIDElement)
    (h : e.exposes env env.kHIDUsage_GD_SystemMenu = false) :
    (getHIDCookies.step env st e).2.gButtonCookie_SystemMenuSelect
      = st.2.gButtonCookie_SystemMenuSelect := by
  unfold getHIDCookies.step
  rcases e with ⟨c, u, p⟩
  simp only [IOHIDElement.exposes, decide_eq_false_iff_not] at h
  cases c <;> cases u <;> cases p <;> try rfl
  simp only
  split_ifs <;> simp_all

theorem set_Select (env : Env) (hwf : env.WellFormed) (st : World × cookie_struct)
    (e : IOHIDElement) (number : Int)
    (h : e.exposes env env.kHIDUsage_GD_SystemMenu = true) (hc : e.cookie = some number) :
    (getHIDCookies.step env st e).2.gButtonCookie_SystemMenuSelect = toCookie number := by
  obtain ⟨a1, a2, a3, a4, a5, a6, a7, a8, a9, a10, a11, a12, a13, a14, a15⟩ := wellFormed_ne env hwf
  unfold getHIDCookies.step
  rcases e with ⟨c, u, p⟩
  simp only [IOHIDElement.exposes, decide_eq_true_eq] at h
  obtain ⟨-, h1, h2⟩ := h
  simp only at hc h1 h2
  subst hc h1 h2
  simp [a1.symm, a2.symm, a3.symm, a4.symm, a5.symm, a6.symm, a7.symm, a8.symm, a9.symm, a10.symm, a11.symm, a12.symm, a13.symm, a14.symm, a15.symm]

theorem skip_Right (env : Env) (st : World × cookie_struct) (e : IOHIDElement)
    (h : e.exposes env env.kHIDUsage_GD_SystemMenuRight = false) :
    (getHIDCookies.step env st e).2.gButtonCookie_SystemMenuRight
      = st.2.gButtonCookie_SystemMenuRight := by
  unfold getHIDCookies.step
  rcases e with ⟨c, u, p⟩
  simp only [IOHIDElement.exposes, decide_eq_false_iff_not] at h
  cases c <;> cases u <;> cases p <;> try rfl
  simp only
  split_ifs <;> simp_all

theorem set_Right (env : Env) (hwf : env.WellFormed) (st : World × cookie_struct)
    (e : IOHIDElement) (number : Int)
    (h : e.exposes env env.kHIDUsage_GD_SystemMenuRight = true) (hc : e.cookie = some number) :
    (getHIDCookies.step env st e).2.gButtonCookie_SystemMenuRight = toCookie number := by
  obtain ⟨a1, a2, a3, a4, a5, a6, a7, a8, a9, a10, a11, a12, a13, a14, a15⟩ := wellFormed_ne env hwf
  unfold getHIDCookies.step
  rcases e with ⟨c, u, p⟩
  simp only [IOHIDElement.exposes, decide_eq_true_eq] at h
  obtain ⟨-, h1, h2⟩ := h
  simp only at hc h1 h2
  subst hc h1 h2
  simp [a1.symm, a2.symm, a3.symm, a4.symm, a5.symm, a6.symm, a7.symm, a8.symm, a9.symm, a10.symm, a11.symm, a12.symm, a13.symm, a14.symm, a15.symm]

theorem skip_Left (env : Env) (st : World × cookie_struct) (e : IOHIDElement)
    (h : e.exposes env env.kHIDUsage_GD_SystemMenuLeft = false) :
    (getHIDCookies.step env st e).2.gButtonCookie_SystemMenuLeft
      = st.2.gButtonCookie_SystemMenuLeft := by
  unfold getHIDCookies.step
  rcases e with ⟨c, u, p⟩
  simp only [IOHIDElement.exposes, decide_eq_false_iff_not] at h
  cases c <;> cases u <;> cases p <;> try rfl
  simp only
  split_ifs <;> simp_all

theorem set_Left (env : Env) (hwf : env.WellFormed) (st : World × cookie_struct)
    (e : IOHIDElement) (number : Int)
    (h : e.exposes env env.kHIDUsage_GD_SystemMenuLeft = true) (hc : e.cookie = some number) :
    (getHIDCookies.step env st e).2.gButtonCookie_SystemMenuLeft = toCookie number := by
  obtain ⟨a1, a2, a3, a4, a5, a6, a7, a8, a9, a10, a11, a12, a13, a14, a15⟩ := wellFormed_ne env hwf
  unfold getHIDCookies.step
  rcases e with ⟨c, u, p⟩
  simp only [IOHIDElement.exposes, decide_eq_true_eq] at h
  obtain ⟨-, h1, h2⟩ := h
  simp only at hc h1 h2
  subst hc h1 h2
  simp [a1.symm, a2.symm, a3.symm, a4.symm, a5.symm, a6.symm, a7.symm, a8.symm, a9.symm, a10.symm, a11.symm, a12.symm, a13.symm, a14.symm, a15.symm]

theorem skip_Up (env : Env) (st : World × cookie_struct) (e : IOHIDElement)
    (h : e.exposes env env.kHIDUsage_GD_SystemMenuUp = false) :
    (getHIDCookies.step env st e).2.gButtonCookie_SystemMenuUp
      = st.2.gButtonCookie_SystemMenuUp := by
  unfold getHIDCookies.step
  rcases e with ⟨c, u, p⟩
  simp only [IOHIDElement.exposes, decide_eq_false_iff_not] at h
  cases c <;> cases u <;> cases p <;> try rfl
  simp only
  split_ifs <;> simp_all

theorem set_Up (env : Env) (hwf : env.WellFormed) (st : World × cookie_struct)
    (e : IOHIDElement) (number : Int)
    (h : e.exposes env env.kHIDUsage_GD_SystemMenuUp = true) (hc : e.cookie = some number) :
    (getHIDCookies.step env st e).2.gButtonCookie_SystemMenuUp = toCookie number := by
  obtain ⟨a1, a2, a3, a4, a5, a6, a7, a8, a9, a10, a11, a12, a13, a14, a15⟩ := wellFormed_ne env hwf
  unfold getHIDCookies.step
  rcases e with ⟨c, u, p⟩
  simp only [IOHIDElement.exposes, decide_eq_true_eq] at h
  obtain ⟨-, h1, h2⟩ := h
  simp only at hc h1 h2
  subst hc h1 h2
  simp [a1.symm, a2.symm, a3.symm, a4.symm, a5.symm, a6.symm, a7.symm, a8.symm, a9.symm, a10.symm, a11.symm, a12.symm, a13.symm, a14.symm, a15.symm]

theorem skip_Down (env : Env) (st : World × cookie_struct) (e : IOHIDElement)
    (h : e.exposes env env.kHIDUsage_GD_SystemMenuDown = false) :
    (getHIDCookies.step env st e).2.gButtonCookie_SystemMenuDown
      = st.2.gButtonCookie_SystemMenuDown := by
  unfold getHIDCookies.step
  rcases e with ⟨c, u, p⟩
  simp only [IOHIDElement.exposes, decide_eq_false_iff_not] at h
  cases c <;> cases u <;> cases p <;> try rfl
  simp only
  split_ifs <;> simp_all

theorem set_Down (env : Env) (hwf : env.WellFormed) (st : World × cookie_struct)
    (e : IOHIDElement) (number : Int)
    (h : e.exposes env env.kHIDUsage_GD_SystemMenuDown = true) (hc : e.cookie = some number) :
    (getHIDCookies.step env st e).2.gButtonCookie_SystemMenuDown = toCookie number := by
  obtain ⟨a1, a2, a3, a4, a5, a6, a7, a8, a9, a10, a11, a12, a13, a14, a15⟩ := wellFormed_ne env hwf
  unfold getHIDCookies.step
  rcases e with ⟨c, u, p⟩
  simp only [IOHIDElement.exposes, decide_eq_true_eq] at h
  obtain ⟨-, h1, h2⟩ := h
  simp only at hc h1 h2
  subst hc h1 h2
  simp [a1.symm, a2.symm, a3.symm, a4.symm, a5.symm, a6.symm, a7.symm, a8.symm, a9.symm, a10.symm, a11.symm, a12.symm, a13.symm, a14.symm, a15.symm]

theorem foldl_step_trace (env : Env) (es : List IOHIDElement) (st : World × cookie_struct) :
    (es.foldl (getHIDCookies.step env) st).1.trace = st.1.trace := by
  induction es generalizing st with
  | nil => rfl
  | cons e rest ih =>
    simp only [List.foldl_cons]
    exact (ih _).trans (step_trace env st e).1

/-- C5: when `malloc` and `copyMatchingElements` succeed and each of the six
usage codes is exposed (with all three attributes readable) by at most one
Generic-Desktop element of the array, `getHIDCookies` returns (no exit,
nothing written to standard error) a record in which each slot holds the
cookie of the Generic-Desktop element exposing the slot's usage code, and
zero when there is no such element; an element with an unreadable attribute, with
another usage page or with a usage code outside the six leaves the whole
state of the loop unchanged. -/
theorem C5_getHIDCookies_fills_each_slot (env : Env) (w : World)
    (hwf : env.WellFormed) (hmalloc : env.mallocOk = true)
    (hcopy : env.copyMatchingElements = kIOReturnSuccess)
    (huniq : ∀ u ∈ env.usageCodes, env.elements.countP (IOHIDElement.exposes env u) ≤ 1) :
    (∃ cookies w1,
      getHIDCookies env w .object = .ret cookies w1
      ∧ w1.trace = w.trace ++ [.copyMatchingElements]
      ∧ holdsCookieOf env env.elements env.kHIDUsage_GD_SystemAppMenu
          cookies.gButtonCookie_SystemAppMenu
      ∧ holdsCookieOf env env.elements env.kHIDUsage_GD_SystemMenu
          cookies.gButtonCookie_SystemMenuSelect
      ∧ holdsCookieOf env env.elements env.kHIDUsage_GD_SystemMenuRight
          cookies.gButtonCookie_SystemMenuRight
      ∧ holdsCookieOf env env.elements env.kHIDUsage_GD_SystemMenuLeft
          cookies.gButtonCookie_SystemMenuLeft
      ∧ holdsCookieOf env env.elements env.kHIDUsage_GD_SystemMenuUp
          cookies.gButtonCookie_SystemMenuUp
      ∧ holdsCookieOf env env.elements env.kHIDUsage_GD_SystemMenuDown
          cookies.gButtonCookie_SystemMenuDown)
    ∧ (∀ (st : World × cookie_struct) (e : IOHIDElement),
        e.ignored env → getHIDCookies.step env st e = st) := by
  refine ⟨⟨(env.elements.foldl (getHIDCookies.step env)
      (w.call .copyMatchingElements, cookie_struct.zero)).2,
    (env.elements.foldl (getHIDCookies.step env)
      (w.call .copyMatchingElements, cookie_struct.zero)).1,
    ?_, ?_, ?_, ?_, ?_, ?_, ?_, ?_⟩, fun st e h => step_ignored env st e h⟩
  · unfold getHIDCookies
    simp only [hmalloc, hcopy, Bool.not_true, Bool.false_eq_true, if_false, ne_eq,
      not_true_eq_false, reduceCtorEq, or_self]
  · exact foldl_step_trace env env.elements (w.call .copyMatchingElements, cookie_struct.zero)
  · exact foldl_slot env (fun c => c.gButtonCookie_SystemAppMenu) env.kHIDUsage_GD_SystemAppMenu
      (skip_AppMenu env) (set_AppMenu env hwf) env.elements
      (huniq _ (by simp [Env.usageCodes])) (w.call .copyMatchingElements, cookie_struct.zero)
  · exact foldl_slot env (fun c => c.gButtonCookie_SystemMenuSelect) env.kHIDUsage_GD_SystemMenu
      (skip_Select env) (set_Select env hwf) env.elements
      (huniq _ (by simp [Env.usageCodes])) (w.call .copyMatchingElements, cookie_struct.zero)
  · exact foldl_slot env (fun c => c.gButtonCookie_SystemMenuRight) env.kHIDUsage_GD_SystemMenuRight
      (skip_Right env) (set_Right env hwf) env.elements
      (huniq _ (by simp [Env.usageCodes])) (w.call .copyMatchingElements, cookie_struct.zero)
  · exact foldl_slot env (fun c => c.gButtonCookie_SystemMenuLeft) env.kHIDUsage_GD_SystemMenuLeft
      (skip_Left env) (set_Left env hwf) env.elements
      (huniq _ (by simp [Env.usageCodes])) (w.call .copyMatchingElements, cookie_struct.zero)
  · exact foldl_slot env (fun c => c.gButtonCookie_SystemMenuUp) env.kHIDUsage_GD_SystemMenuUp
      (skip_Up env) (set_Up env hwf) env.elements
      (huniq _ (by simp [Env.usageCodes])) (w.call .copyMatchingElements, cookie_struct.zero)
  · exact foldl_slot env (fun c => c.gButtonCookie_SystemMenuDown) env.kHIDUsage_GD_SystemMenuDown
      (skip_Down env) (set_Down env hwf) env.elements
      (huniq _ (by simp [Env.usageCodes])) (w.call .copyMatchingElements, cookie_struct.zero)

/-- C5 at the concrete remote: six buttons among four other elements. -/
theorem C5_getHIDCookies_fills_each_slot_witness :
    getHIDCookies Env.remote World.initial .object
      = .ret Env.remoteCookies (World.resolved 0)
    ∧ ∀ (st : World × cookie_struct) (e : IOHIDElement),
        e.ignored Env.remote → getHIDCookies.step Env.remote st e = st :=
  ⟨by decide,
    (C5_getHIDCookies_fills_each_slot Env.remote World.initial (by decide) rfl rfl
      (by decide)).2⟩

/-- C8 as stated fails.  (a) When `IOCreatePlugInInterfaceForService` fails,
`createHIDDeviceInterface` returns without a message, and `setupAndRun` ends
the process with "No HID." and the generic status 1, not `EX_OSERR`.
(b) When `QueryInterface` fails, the text written does not depend on the
result: `E_NOINTERFACE` and `E_FAIL` give the same text, with no status
code in it. -/
theorem C8_counterexample_plugin_failure_exits_1 :
    Env.plugInFails.IOCreatePlugInInterfaceForService ≠ kIOReturnSuccess
    ∧ createHIDDeviceInterface Env.plugInFails World.initial .NULL
        = .ret .NULL
            { World.initial with
              trace := [.IOObjectGetClass, .IOCreatePlugInInterfaceForService] }
    ∧ setupAndRun Env.plugInFails World.initial
        = .exit 1
            { World.initial with
              trace := [.IOServiceNameMatching "AppleIRController",
                .IOServiceGetMatchingService, .IOObjectGetClass,
                .IOCreatePlugInInterfaceForService, .IOObjectRelease,
                .stderr "No HID.\n"] }
    ∧ (1 : Nat) ≠ EX_OSERR
    ∧ createHIDDeviceInterface (Env.queryFails (-2147467262)) World.initial .NULL
        = .exit EX_OSERR
            { World.initial with
              trace := [.IOObjectGetClass, .IOCreatePlugInInterfaceForService,
                .QueryInterface, .stderr "*** Failed to create device interface.\n.\n"] }
    ∧ createHIDDeviceInterface (Env.queryFails (-2147467259)) World.initial .NULL
        = createHIDDeviceInterface (Env.queryFails (-2147467262)) World.initial .NULL := by
  refine ⟨by decide, by decide, by decide, by decide, by decide, by decide⟩

theorem createHIDDeviceInterface_plugin_fails (env : Env) (w : World) (hdi : InterfaceRef)
    (hclass : env.IOObjectGetClass = kIOReturnSuccess)
    (hplug : env.IOCreatePlugInInterfaceForService ≠ kIOReturnSuccess) :
    createHIDDeviceInterface env w hdi
      = .ret hdi ((w.call .IOObjectGetClass).call .IOCreatePlugInInterfaceForService) := by
  unfold createHIDDeviceInterface print_errmsg_if_io_err
  simp only [hclass, ne_eq, not_true_eq_false, if_false, Result.bind]
  rw [if_pos hplug]

theorem createHIDDeviceInterface_query_fails (env : Env) (w : World) (hdi : InterfaceRef)
    (hclass : env.IOObjectGetClass = kIOReturnSuccess)
    (hplug : env.IOCreatePlugInInterfaceForService = kIOReturnSuccess)
    (hquery : env.QueryInterface ≠ S_OK) :
    createHIDDeviceInterface env w hdi
      = .exit EX_OSERR
          ((((w.call .IOObjectGetClass).call .IOCreatePlugInInterfaceForService).call
            .QueryInterface).call
            (.stderr "*** Failed to create device interface.\n.\n")) := by
  unfold createHIDDeviceInterface print_errmsg_if_io_err print_errmsg_if_err
  simp only [hclass, hplug, ne_eq, not_true_eq_false, if_false, Result.bind]
  rw [if_pos hquery]
  simp only [one_ne_zero, not_false_eq_true, if_true]
  rfl

/-- The whole of `setupAndRun` when `IOCreatePlugInInterfaceForService`
fails: every path ends in `exit`. -/
theorem setupAndRun_plugin_fails (env : Env) (w : World)
    (hservice : env.hidService ≠ 0)
    (hclass : env.IOObjectGetClass = kIOReturnSuccess)
    (hplug : env.IOCreatePlugInInterfaceForService ≠ kIOReturnSuccess) :
    setupAndRun env w
      = if (!env.mallocOk) = true then
          .exit 1 (((((w.call (.IOServiceNameMatching "AppleIRController")).call
            .IOServiceGetMatchingService).call .IOObjectGetClass).call
            .IOCreatePlugInInterfaceForService).call
            (.stderr "Failed to allocate cookie memory.\n"))
        else
          (print_errmsg_if_io_err env
            (((((w.call (.IOServiceNameMatching "AppleIRController")).call
              .IOServiceGetMatchingService).call .IOObjectGetClass).call
              .IOCreatePlugInInterfaceForService).call .IOObjectRelease)
            env.IOObjectRelease "Failed to release HID.").bind fun _ w1 =>
          .exit 1 (w1.call (.stderr "No HID.\n")) := by
  unfold setupAndRun
  simp only [hservice, if_false]
  rw [createHIDDeviceInterface_plugin_fails env _ .NULL hclass hplug]
  unfold getHIDCookies
  by_cases hm : (!env.mallocOk) = true
  · simp only [Result.bind, hm, if_true]
  · simp only [Result.bind, hm, if_false, true_or, if_true, Bool.false_eq_true]

/-- C8, amended.  Let the service be found and `IOObjectGetClass` succeed.
(a) If `IOCreatePlugInInterfaceForService` fails, `createHIDDeviceInterface`
writes nothing and returns with the interface still `NULL`; `setupAndRun`
then ends the process with a nonzero status without a call to `open` or
`allocQueue`, and when `malloc` and `IOObjectRelease` succeed the text is
"No HID." and the status is the generic 1.
(b) If `QueryInterface` returns a result other than `S_OK`, the process
writes `*** Failed to create device interface.` followed by a newline, a dot
and a newline (without the status code) and ends with `EX_OSERR`, which
differs from 1, without a call to `open` or `allocQueue`. -/
theorem C8_interface_factory_failures (env : Env) (w : World)
    (hservice : env.hidService ≠ 0)
    (hclass : env.IOObjectGetClass = kIOReturnSuccess) :
    (env.IOCreatePlugInInterfaceForService ≠ kIOReturnSuccess →
      createHIDDeviceInterface env w .NULL
          = .ret .NULL ((w.call .IOObjectGetClass).call .IOCreatePlugInInterfaceForService)
      ∧ (∃ status w1, setupAndRun env w = .exit status w1 ∧ status ≠ 0
          ∧ Call.deviceOpen 0 ∉ w1.trace.drop w.trace.length
          ∧ Call.allocQueue ∉ w1.trace.drop w.trace.length)
      ∧ (env.mallocOk = true → env.IOObjectRelease = kIOReturnSuccess →
          setupAndRun env w
            = .exit 1
                { w with
                  trace := w.trace ++ [.IOServiceNameMatching "AppleIRController",
                    .IOServiceGetMatchingService, .IOObjectGetClass,
                    .IOCreatePlugInInterfaceForService, .IOObjectRelease,
                    .stderr "No HID.\n"] }))
    ∧ (env.IOCreatePlugInInterfaceForService = kIOReturnSuccess →
        env.QueryInterface ≠ S_OK →
        setupAndRun env w
            = .exit EX_OSERR
                { w with
                  trace := w.trace ++ [.IOServiceNameMatching "AppleIRController",
                    .IOServiceGetMatchingService, .IOObjectGetClass,
                    .IOCreatePlugInInterfaceForService, .QueryInterface,
                    .stderr "*** Failed to create device interface.\n.\n"] }
        ∧ EX_OSERR ≠ 1) := by
  constructor
  · intro hplug
    refine ⟨createHIDDeviceInterface_plugin_fails env w .NULL hclass hplug, ?_, ?_⟩
    · rw [setupAndRun_plugin_fails env w hservice hclass hplug]
      unfold print_errmsg_if_io_err
      by_cases hm : (!env.mallocOk) = true
      · rw [if_pos hm]
        exact ⟨1, _, rfl, by decide, by simp [World.call], by simp [World.call]⟩
      · rw [if_neg hm]
        by_cases hr : env.IOObjectRelease ≠ kIOReturnSuccess
        · rw [if_pos hr]
          simp only [Result.bind]
          exact ⟨EX_OSERR, _, rfl, by decide, by simp [World.call], by simp [World.call]⟩
        · rw [if_neg hr]
          simp only [Result.bind]
          exact ⟨1, _, rfl, by decide, by simp [World.call], by simp [World.call]⟩
    · intro hm hr
      rw [setupAndRun_plugin_fails env w hservice hclass hplug]
      unfold print_errmsg_if_io_err
      simp [Result.bind, hm, hr, World.call]
  · intro hplug hquery
    refine ⟨?_, by decide⟩
    unfold setupAndRun
    simp only [hservice, if_false]
    rw [createHIDDeviceInterface_query_fails env _ .NULL hclass hplug hquery]
    simp [Result.bind, World.call]

/-- C8 at a concrete environment: `QueryInterface` returns `E_NOINTERFACE`. -/
theorem C8_interface_factory_failures_witness :
    (Env.queryFails (-2147467262)).QueryInterface ≠ S_OK
    ∧ setupAndRun (Env.queryFails (-2147467262)) World.initial
        = .exit EX_OSERR
            { World.initial with
              trace := [.IOServiceNameMatching "AppleIRController",
                .IOServiceGetMatchingService, .IOObjectGetClass,
                .IOCreatePlugInInterfaceForService, .QueryInterface,
                .stderr "*** Failed to create device interface.\n.\n"] } :=
  ⟨by decide,
    ((C8_interface_factory_failures (Env.queryFails (-2147467262)) World.initial
      (by decide) (by decide)).2 (by decide) (by decide)).1⟩

theorem setupAndRun_acquired (env : Env) (w : World) (h : env.acquires) :
    setupAndRun env w
      = (doRun env (setupAndRun.acquired env w).1 (setupAndRun.acquired env w).2).bind
          fun _ w1 =>
          .ret () ((if env.open_setupAndRun = KERN_SUCCESS then w1.call .deviceClose
            else w1).call .deviceRelease) := by
  obtain ⟨h1, h2, h3, h4, h5, h6, h7⟩ := h
  unfold setupAndRun createHIDDeviceInterface getHIDCookies print_errmsg_if_io_err
    print_errmsg_if_err setupAndRun.acquired
  simp only [h1, h2, h3, h4, h5, h6, h7, Result.bind, if_false, ne_eq, not_true_eq_false,
    Bool.not_true, Bool.false_eq_true, reduceCtorEq, or_self]

theorem acquired_trace (env : Env) (w : World) :
    (setupAndRun.acquired env w).1.trace
      = w.trace ++ [.IOServiceNameMatching "AppleIRController", .IOServiceGetMatchingService,
          .IOObjectGetClass, .IOCreatePlugInInterfaceForService, .QueryInterface,
          .plugInRelease, .copyMatchingElements, .IOObjectRelease, .deviceOpen 0] := by
  unfold setupAndRun.acquired
  simp only [World.call]
  rw [foldl_step_trace]
  simp

theorem processQueue_no_queue (env : Env) (w : World) (cookies : cookie_struct)
    (halloc : env.allocQueue = false) :
    processQueue env w cookies
      = .ret () ((w.call .allocQueue).call (.stderr "Failed to allocate event queue.\n")) := by
  unfold processQueue
  simp [halloc]

theorem main_options_preview (opts : List Char) (w : World) (h : ∀ c ∈ opts, c = 'p') :
    ∃ w1, main.options w opts = .ret () w1 ∧ w1.trace = w.trace := by
  induction opts generalizing w with
  | nil => exact ⟨w, rfl, rfl⟩
  | cons c rest ih =>
    have hc : c = 'p' := h c (List.mem_cons_self c rest)
    subst hc
    unfold main.options
    simp only [Char.reduceEq, if_false, if_true]
    exact ih _ (fun x hx => h x (List.mem_cons_of_mem _ hx))

/-- C9: when `allocQueue` returns no queue, `processQueue` writes "Failed to
allocate event queue." and returns: it makes no other call (no `create`, no
`addElement`, no `setEventCallout`, no `start`, no `CFRunLoopRun`, so no
event is delivered).  `doRun` then closes the device when its `open`
succeeded and releases it, and returns.  In the whole program, when the
acquisition succeeded and the options do not end the process, `setupAndRun`
closes (when its own `open` succeeded) and releases, and `main` returns 0;
the calls of the process are exactly the ones listed. -/
theorem C9_queue_allocation_failure_not_fatal (env : Env) (w : World)
    (cookies : cookie_struct) (opts : List Char)
    (halloc : env.allocQueue = false) :
    processQueue env w cookies
        = .ret () ((w.call .allocQueue).call (.stderr "Failed to allocate event queue.\n"))
    ∧ doRun env w cookies
        = .ret ()
            { w with
              trace := w.trace
                ++ [.deviceOpen 0, .allocQueue, .stderr "Failed to allocate event queue.\n"]
                ++ (if env.open_doRun = KERN_SUCCESS then [.deviceClose] else [])
                ++ [.deviceRelease] }
    ∧ (env.acquires → (∀ c ∈ opts, c = 'p') →
        ∃ w1, main env w opts = .ret 0 w1
          ∧ w1.trace
            = w.trace ++ [.IOServiceNameMatching "AppleIRController",
                .IOServiceGetMatchingService, .IOObjectGetClass,
                .IOCreatePlugInInterfaceForService, .QueryInterface, .plugInRelease,
                .copyMatchingElements, .IOObjectRelease, .deviceOpen 0,
                .deviceOpen 0, .allocQueue, .stderr "Failed to allocate event queue.\n"]
              ++ (if env.open_doRun = KERN_SUCCESS then [.deviceClose] else [])
              ++ [.deviceRelease]
              ++ (if env.open_setupAndRun = KERN_SUCCESS then [.deviceClose] else [])
              ++ [.deviceRelease]) := by
  have hdo : ∀ (v : World) (c : cookie_struct), doRun env v c
        = .ret ()
            { v with
              trace := v.trace
                ++ [.deviceOpen 0, .allocQueue, .stderr "Failed to allocate event queue.\n"]
                ++ (if env.open_doRun = KERN_SUCCESS then [.deviceClose] else [])
                ++ [.deviceRelease] } := by
    intro v c
    unfold doRun
    simp only
    rw [processQueue_no_queue env _ c halloc]
    simp only [Result.bind]
    split_ifs <;> simp [World.call]
  refine ⟨processQueue_no_queue env w cookies halloc, hdo w cookies, ?_⟩
  intro hacq hopts
  obtain ⟨w0, hw0, ht0⟩ := main_options_preview opts w hopts
  unfold main
  rw [hw0]
  simp only [Result.bind]
  rw [setupAndRun_acquired env w0 hacq, hdo]
  simp only [Result.bind]
  refine ⟨_, rfl, ?_⟩
  have ht := acquired_trace env w0
  split_ifs <;> simp [World.call, ht, ht0]

/-- C9 at a concrete environment: the remote with `allocQueue` failing, in
drive mode. -/
theorem C9_queue_allocation_failure_not_fatal_witness :
    ∃ w1, main { Env.remote with allocQueue := false } World.initial ['p'] = .ret 0 w1
      ∧ w1.trace
        = [.IOServiceNameMatching "AppleIRController",
            .IOServiceGetMatchingService, .IOObjectGetClass,
            .IOCreatePlugInInterfaceForService, .QueryInterface, .plugInRelease,
            .copyMatchingElements, .IOObjectRelease, .deviceOpen 0,
            .deviceOpen 0, .allocQueue, .stderr "Failed to allocate event queue.\n",
            .deviceClose, .deviceRelease, .deviceClose, .deviceRelease] :=
  (C9_queue_allocation_failure_not_fatal { Env.remote with allocQueue := false }
    World.initial Env.remoteCookies ['p'] rfl).2.2 (by decide) (by decide)

theorem deviceCalls_call (w : World) (c : Call) :
    (w.call c).deviceCalls = w.deviceCalls ++ (if c.isDeviceCall then [c] else []) := by
  unfold World.deviceCalls World.call
  simp only [List.filter_append]
  congr 1
  cases h : c.isDeviceCall <;> simp [List.filter, h]

theorem QueueCallbackFunction_deviceCalls (w : World) (q : Queue) :
    (QueueCallbackFunction w q).1.deviceCalls = w.deviceCalls := by
  unfold World.deviceCalls
  rw [QueueCallbackFunction_trace]
  simp only [List.filter_append]
  have h1 : List.filter Call.isDeviceCall [Call.getNextEvent 0 0 0] = [] := rfl
  have h2 : List.filter Call.isDeviceCall (q.flatMap (fun e => Call.getNextEvent 0 0 0
      :: (QueueCallbackFunction.dispatch { w with trace := [] } e).trace)) = [] := by
    rw [List.filter_eq_nil_iff]
    intro c hc
    simp only [List.mem_flatMap, List.mem_cons] at hc
    obtain ⟨e, -, hc | hc⟩ := hc
    · rw [hc]; decide
    · rcases dispatch_calls w e with h | h | h | h <;> rw [h] at hc <;> simp at hc <;>
        rw [hc] <;> simp [Call.isDeviceCall]
  rw [h1, h2]
  simp

theorem wakes_deviceCalls (wakes : List Queue) (w : World) :
    (wakes.foldl (fun acc q => (QueueCallbackFunction acc q).1) w).deviceCalls
      = w.deviceCalls := by
  induction wakes generalizing w with
  | nil => rfl
  | cons q rest ih =>
    simp only [List.foldl_cons]
    rw [ih, QueueCallbackFunction_deviceCalls]

theorem CFRunLoopRun_deviceCalls (env : Env) (w : World) :
    (CFRunLoopRun env w).world.deviceCalls = w.deviceCalls := by
  unfold CFRunLoopRun
  simp only
  split_ifs <;> simp [Result.world, wakes_deviceCalls, deviceCalls_call, Call.isDeviceCall]

theorem addQueueCallbacks_deviceCalls (env : Env) (w : World) :
    (addQueueCallbacks env w).world.deviceCalls = w.deviceCalls := by
  unfold addQueueCallbacks
  simp only
  split_ifs <;> simp [Result.world, deviceCalls_call, Call.isDeviceCall]

/-- Sequencing adds no call on the device interface when neither part does. -/
theorem bind_deviceCalls {α β : Type} (l : List Call) (r : Result α)
    (f : α → World → Result β) (hr : r.world.deviceCalls = l)
    (hf : ∀ a w1, w1.deviceCalls = l → (f a w1).world.deviceCalls = l) :
    (r.bind f).world.deviceCalls = l := by
  cases r with
  | ret a w1 => exact hf a w1 hr
  | exit s w1 => exact hr
  | blocked w1 => exact hr

theorem processQueue_deviceCalls (env : Env) (w : World) (cookies : cookie_struct) :
    (processQueue env w cookies).world.deviceCalls = w.deviceCalls := by
  unfold processQueue
  by_cases ha : (!env.allocQueue) = true
  · simp only [ha, if_true]
    simp [Result.world, deviceCalls_call, Call.isDeviceCall]
  · simp only [ha, if_false]
    apply bind_deviceCalls
    · rw [addQueueCallbacks_deviceCalls]
      simp [deviceCalls_call, Call.isDeviceCall]
    · intro _ w1 h1
      apply bind_deviceCalls
      · rw [CFRunLoopRun_deviceCalls]
        simp [deviceCalls_call, Call.isDeviceCall, h1]
      · intro _ w2 h2
        simp [Result.world, deviceCalls_call, Call.isDeviceCall, h2]

/-- Whenever `doRun` returns, it has made one `open`, one `close` if that
`open` succeeded, and one `Release`, in this order. -/
theorem doRun_deviceCalls (env : Env) (w : World) (cookies : cookie_struct) (w1 : World)
    (h : doRun env w cookies = .ret () w1) :
    w1.deviceCalls
      = w.deviceCalls ++ [.deviceOpen 0]
        ++ (if env.open_doRun = KERN_SUCCESS then [.deviceClose] else [])
        ++ [.deviceRelease] := by
  unfold doRun at h
  simp only at h
  have hp := processQueue_deviceCalls env (w.call (.deviceOpen 0)) cookies
  cases hr : processQueue env (w.call (.deviceOpen 0)) cookies with
  | ret a w2 =>
    rw [hr] at h hp
    simp only [Result.bind, Result.ret.injEq, true_and] at h
    simp only [Result.world, deviceCalls_call, Call.isDeviceCall, if_true] at hp
    rw [← h]
    split_ifs <;> simp [deviceCalls_call, Call.isDeviceCall, hp]
  | exit s w2 => rw [hr] at h; simp [Result.bind] at h
  | blocked w2 => rw [hr] at h; simp [Result.bind] at h

theorem setupAndRun_ret_acquires (env : Env) (w w1 : World)
    (h : setupAndRun env w = .ret () w1) : env.acquires := by
  unfold Env.acquires
  unfold setupAndRun createHIDDeviceInterface getHIDCookies print_errmsg_if_io_err
    print_errmsg_if_err at h
  by_cases h1 : env.hidService = 0
  · simp [h1] at h
  by_cases h2 : env.IOObjectGetClass = kIOReturnSuccess
  swap
  · simp [h1, h2, Result.bind] at h
  by_cases h3 : env.IOCreatePlugInInterfaceForService = kIOReturnSuccess
  swap
  · by_cases h5 : env.mallocOk = true
    · by_cases h7 : env.IOObjectRelease = kIOReturnSuccess
      · simp [h1, h2, h3, h5, h7, Result.bind] at h
      · simp [h1, h2, h3, h5, h7, Result.bind] at h
    · simp [h1, h2, h3, h5, Result.bind] at h
  by_cases h4 : env.QueryInterface = S_OK
  swap
  · simp [h1, h2, h3, h4, Result.bind] at h
  by_cases h5 : env.mallocOk = true
  swap
  · simp [h1, h2, h3, h4, h5, Result.bind] at h
  by_cases h6 : env.copyMatchingElements = kIOReturnSuccess
  swap
  · simp [h1, h2, h3, h4, h5, h6, Result.bind] at h
  by_cases h7 : env.IOObjectRelease = kIOReturnSuccess
  swap
  · simp [h1, h2, h3, h4, h5, h6, h7, Result.bind] at h
  exact ⟨h1, h2, h3, h4, h5, h6, h7⟩

/-- Whenever `setupAndRun` returns, the calls it has made on the device
interface are: `open`, `open`, `close` if the second `open` succeeded,
`Release`, `close` if the first `open` succeeded, `Release`. -/
theorem setupAndRun_deviceCalls (env : Env) (w w1 : World)
    (h : setupAndRun env w = .ret () w1) :
    w1.deviceCalls
      = w.deviceCalls ++ [.deviceOpen 0, .deviceOpen 0]
        ++ (if env.open_doRun = KERN_SUCCESS then [.deviceClose] else [])
        ++ [.deviceRelease]
        ++ (if env.open_setupAndRun = KERN_SUCCESS then [.deviceClose] else [])
        ++ [.deviceRelease] := by
  have hacq := setupAndRun_ret_acquires env w w1 h
  rw [setupAndRun_acquired env w hacq] at h
  have ha : (setupAndRun.acquired env w).1.deviceCalls = w.deviceCalls ++ [.deviceOpen 0] := by
    unfold World.deviceCalls
    rw [acquired_trace, List.filter_append]
    rfl
  cases hr : doRun env (setupAndRun.acquired env w).1 (setupAndRun.acquired env w).2 with
  | ret a w2 =>
    have hd := doRun_deviceCalls env _ _ w2 hr
    rw [hr] at h
    simp only [Result.bind, Result.ret.injEq, true_and] at h
    rw [ha] at hd
    rw [← h]
    by_cases h1 : env.open_setupAndRun = KERN_SUCCESS <;>
      by_cases h2 : env.open_doRun = KERN_SUCCESS <;>
      simp [deviceCalls_call, Call.isDeviceCall, hd, h1, h2]
  | exit s w2 => rw [hr] at h; simp [Result.bind] at h
  | blocked w2 => rw [hr] at h; simp [Result.bind] at h

/-- C7 fails on the code: on the run in which every call succeeds and the
run loop returns, `main` returns 0 and the device interface has been
released twice, once by `doRun` and once more by `setupAndRun`; the second
`close` and the second `Release` come after the first `Release`. -/
theorem C7_device_interface_released_twice :
    ∃ w1, main Env.remote World.initial [] = .ret 0 w1
      ∧ w1.deviceCalls
        = [.deviceOpen 0, .deviceOpen 0, .deviceClose, .deviceRelease, .deviceClose,
            .deviceRelease]
      ∧ w1.trace.count .deviceRelease = 2 := by
  unfold main main.options
  simp only [Result.bind]
  rw [setupAndRun_acquired _ _ (by decide)]
  have h : setupAndRun.acquired Env.remote World.initial
      = ({ buttonNextID := 4, buttonPreviousID := 5, drivePreview := 0,
           trace := [.IOServiceNameMatching "AppleIRController", .IOServiceGetMatchingService,
          .IOObjectGetClass, .IOCreatePlugInInterfaceForService, .QueryInterface,
          .plugInRelease, .copyMatchingElements, .IOObjectRelease, .deviceOpen 0] },
          Env.remoteCookies) := by decide
  rw [h]
  unfold doRun processQueue addQueueCallbacks CFRunLoopRun
  simp only [Result.bind, QueueCallbackFunction_eq_foldl]
  exact ⟨_, rfl, by decide, by decide⟩

/-! ## The role variables across the whole program -/

theorem ret_bind {α β : Type} (a : α) (w : World) (f : α → World → Result β) :
    (Result.ret a w).bind f = f a w := rfl

theorem exit_bind {α β : Type} (s : Nat) (w : World) (f : α → World → Result β) :
    (Result.exit s w : Result α).bind f = .exit s w := rfl

theorem blocked_bind {α β : Type} (w : World) (f : α → World → Result β) :
    (Result.blocked w : Result α).bind f = .blocked w := rfl

/-- When `getHIDCookies` does not return, it has written neither role
variable. -/
theorem getHIDCookies_exit_roles {w0 w : World} (h : sameRoles w0 w) (env : Env)
    (handle : InterfaceRef)
    (hno : ∀ cookies w2, getHIDCookies env w handle ≠ .ret cookies w2) :
    sameRoles w0 (getHIDCookies env w handle).world := by
  unfold getHIDCookies at hno ⊢
  by_cases hm : (!env.mallocOk) = true
  · rw [if_pos hm]
    exact h
  · rw [if_neg hm] at hno ⊢
    by_cases hh : handle = .NULL ∨ handle = .nullTarget
    · simp only [hh, if_true] at hno
      exact absurd rfl (hno _ _)
    · by_cases hr : env.copyMatchingElements ≠ kIOReturnSuccess
      · simp only [hh, if_false]
        rw [if_pos hr]
        exact h
      · simp only [hh, if_false] at hno
        rw [if_neg hr] at hno
        exact absurd rfl (hno _ _)

/-- The part of `setupAndRun` that follows the call of `getHIDCookies`
writes neither role variable. -/
theorem setupAndRun_tail_roles {w0 w : World} (h : sameRoles w0 w) (env : Env)
    (hdi : InterfaceRef) (cookies : cookie_struct) :
    sameRoles w0
      ((print_errmsg_if_io_err env (w.call .IOObjectRelease) env.IOObjectRelease
          "Failed to release HID.").bind fun _ w1 =>
        if hdi = .NULL then
          .exit 1 (w1.call (.stderr "No HID.\n"))
        else
          (doRun env (w1.call (.deviceOpen 0)) cookies).bind fun _ w2 =>
          (.ret () ((if env.open_setupAndRun = KERN_SUCCESS then w2.call .deviceClose
            else w2).call .deviceRelease) : Result Unit)).world := by
  apply bind_roles
  · refine print_errmsg_if_io_err_roles ?_ env _ _
    exact h
  · intro _ w1 h1
    by_cases hn : hdi = .NULL
    · rw [if_pos hn]
      exact h1
    · rw [if_neg hn]
      apply bind_roles
      · refine doRun_roles ?_ env cookies
        exact h1
      · intro _ w2 h2
        simp only [Result.world]
        split_ifs <;> exact h2

/-- The role variables at the end of `setupAndRun`: those left by
`getHIDCookies` when it was called and returned, and otherwise those found
at the start. -/
theorem setupAndRun_roles (env : Env) (v : World) :
    (env.hidService = 0 → sameRoles v (setupAndRun env v).world)
    ∧ (env.hidService ≠ 0 →
        (∀ hdi w1, createHIDDeviceInterface env
            ((v.call (.IOServiceNameMatching "AppleIRController")).call
              .IOServiceGetMatchingService) .NULL ≠ .ret hdi w1) →
        sameRoles v (setupAndRun env v).world)
    ∧ (∀ hdi w1, env.hidService ≠ 0 →
        createHIDDeviceInterface env
            ((v.call (.IOServiceNameMatching "AppleIRController")).call
              .IOServiceGetMatchingService) .NULL = .ret hdi w1 →
        sameRoles v w1
        ∧ (∀ cookies w2, getHIDCookies env w1 hdi = .ret cookies w2 →
            sameRoles w2 (setupAndRun env v).world)
        ∧ ((∀ cookies w2, getHIDCookies env w1 hdi ≠ .ret cookies w2) →
            sameRoles v (setupAndRun env v).world)) := by
  have hcr := @createHIDDeviceInterface_roles v
    ((v.call (.IOServiceNameMatching "AppleIRController")).call
      .IOServiceGetMatchingService) ⟨rfl, rfl⟩ env .NULL
  refine ⟨?_, ?_, ?_⟩
  · intro hs
    unfold setupAndRun
    simp only [hs, if_true]
    exact ⟨rfl, rfl⟩
  · intro hs hno
    unfold setupAndRun
    simp only [hs, if_false]
    cases hc : createHIDDeviceInterface env
        ((v.call (.IOServiceNameMatching "AppleIRController")).call
          .IOServiceGetMatchingService) .NULL with
    | ret hdi w1 => exact absurd hc (hno hdi w1)
    | exit s w1 => rw [hc] at hcr; exact hcr
    | blocked w1 => rw [hc] at hcr; exact hcr
  · intro hdi w1 hs hc
    rw [hc] at hcr
    have hv1 : sameRoles v w1 := hcr
    refine ⟨hv1, ?_, ?_⟩
    · intro cookies w2 hg
      unfold setupAndRun
      simp only [hs, if_false]
      rw [hc, ret_bind, hg, ret_bind]
      exact setupAndRun_tail_roles ⟨rfl, rfl⟩ env hdi cookies
    · intro hno
      have hx := getHIDCookies_exit_roles hv1 env hdi hno
      unfold setupAndRun
      simp only [hs, if_false]
      rw [hc, ret_bind]
      cases hg : getHIDCookies env w1 hdi with
      | ret cookies w2 => exact absurd hg (hno cookies w2)
      | exit s w2 => rw [hg] at hx; exact hx
      | blocked w2 => rw [hg] at hx; exact hx

/-- The function `main` adds no write of a role variable to those of
`main.options` and `setupAndRun`: its final state is that of `setupAndRun`,
started in the state that the option loop returns, or that of the option
loop when the loop ends the process. -/
theorem main_world (env : Env) (v : World) (opts : List Char) :
    (∀ v1, main.options v opts = .ret () v1 →
      sameRoles v v1 ∧ (main env v opts).world = (setupAndRun env v1).world)
    ∧ ((∀ v1, main.options v opts ≠ .ret () v1) →
        (main env v opts).world = (main.options v opts).world
        ∧ sameRoles v (main env v opts).world) := by
  have ho := @main_options_roles v opts v ⟨rfl, rfl⟩
  constructor
  · intro v1 h1
    rw [h1] at ho
    refine ⟨ho, ?_⟩
    unfold main
    rw [h1, ret_bind]
    cases setupAndRun env v1 <;> rfl
  · intro hno
    unfold main
    cases h1 : main.options v opts with
    | ret a v1 => exact absurd h1 (hno v1)
    | exit s v1 => rw [h1] at ho; exact ⟨rfl, ho⟩
    | blocked v1 => rw [h1] at ho; exact ⟨rfl, ho⟩

/-- C10: after `getHIDCookies` returns from a state in which `buttonNextID`
and `buttonPreviousID` are zero, for any handle and any element list,
`buttonNextID` equals the Right slot and `buttonPreviousID` the Left slot of
the record returned; and every other function of the program leaves both
variables as they were, however it ends.  This includes the two callers:
`setupAndRun` ends with the role variables as `getHIDCookies` left them
(as it found them when `getHIDCookies` was not called or did not return),
it calls `doRun` in the state `getHIDCookies` returned plus its own two
calls, and `main` ends in the final state of `setupAndRun`; so at the end
of the program the two variables still equal the Right and Left slots. -/
theorem C10_roles_written_only_by_getHIDCookies (env : Env) (w0 : World)
    (handle : InterfaceRef) (cookies : cookie_struct) (w : World)
    (hn : w0.buttonNextID = 0) (hp : w0.buttonPreviousID = 0)
    (hget : getHIDCookies env w0 handle = .ret cookies w) :
    (w.buttonNextID = cookies.gButtonCookie_SystemMenuRight
      ∧ w.buttonPreviousID = cookies.gButtonCookie_SystemMenuLeft)
    ∧ (∀ (v : World) (button : IOHIDElementCookie), sameRoles v (PreviewChangeSlide v button))
    ∧ (∀ (v : World) (q : Queue), sameRoles v (QueueCallbackFunction v q).1)
    ∧ (∀ (v : World) (expr : Int) (msg : String),
        sameRoles v (print_errmsg_if_io_err env v expr msg).world
        ∧ sameRoles v (print_errmsg_if_err v expr msg).world)
    ∧ (∀ v : World, sameRoles v (addQueueCallbacks env v).world)
    ∧ (∀ v : World, sameRoles v (CFRunLoopRun env v).world)
    ∧ (∀ (v : World) (c : cookie_struct), sameRoles v (processQueue env v c).world)
    ∧ (∀ (v : World) (c : cookie_struct), sameRoles v (doRun env v c).world)
    ∧ (∀ (v : World) (hdi : InterfaceRef),
        sameRoles v (createHIDDeviceInterface env v hdi).world)
    ∧ (∀ v : World, sameRoles v (usage v))
    ∧ (∀ (v : World) (opts : List Char), sameRoles v (main.options v opts).world)
    ∧ (∀ v : World,
        (env.hidService = 0 → sameRoles v (setupAndRun env v).world)
        ∧ (env.hidService ≠ 0 →
            (∀ hdi w1, createHIDDeviceInterface env
                ((v.call (.IOServiceNameMatching "AppleIRController")).call
                  .IOServiceGetMatchingService) .NULL ≠ .ret hdi w1) →
            sameRoles v (setupAndRun env v).world)
        ∧ (∀ hdi w1, env.hidService ≠ 0 →
            createHIDDeviceInterface env
                ((v.call (.IOServiceNameMatching "AppleIRController")).call
                  .IOServiceGetMatchingService) .NULL = .ret hdi w1 →
            sameRoles v w1
            ∧ (∀ c w2, getHIDCookies env w1 hdi = .ret c w2 →
                sameRoles w2 (setupAndRun env v).world)
            ∧ ((∀ c w2, getHIDCookies env w1 hdi ≠ .ret c w2) →
                sameRoles v (setupAndRun env v).world)))
    ∧ (env.acquires → ∀ v : World, ∃ c w2,
        getHIDCookies env
            ((((((v.call (.IOServiceNameMatching "AppleIRController")).call
              .IOServiceGetMatchingService).call .IOObjectGetClass).call
              .IOCreatePlugInInterfaceForService).call .QueryInterface).call
              .plugInRelease) .object = .ret c w2
        ∧ setupAndRun env v
            = (doRun env ((w2.call .IOObjectRelease).call (.deviceOpen 0)) c).bind
                fun _ w3 =>
                .ret () ((if env.open_setupAndRun = KERN_SUCCESS then w3.call .deviceClose
                  else w3).call .deviceRelease))
    ∧ (∀ (v : World) (opts : List Char),
        (∀ v1, main.options v opts = .ret () v1 →
          sameRoles v v1 ∧ (main env v opts).world = (setupAndRun env v1).world)
        ∧ ((∀ v1, main.options v opts ≠ .ret () v1) →
            (main env v opts).world = (main.options v opts).world
            ∧ sameRoles v (main env v opts).world))
    ∧ (∀ (v : World) (opts : List Char) (v1 : World) (hdi : InterfaceRef) (w1 : World)
        (c : cookie_struct) (w2 : World),
        v.buttonNextID = 0 → v.buttonPreviousID = 0 →
        main.options v opts = .ret () v1 → env.hidService ≠ 0 →
        createHIDDeviceInterface env
            ((v1.call (.IOServiceNameMatching "AppleIRController")).call
              .IOServiceGetMatchingService) .NULL = .ret hdi w1 →
        getHIDCookies env w1 hdi = .ret c w2 →
        (main env v opts).world.buttonNextID = c.gButtonCookie_SystemMenuRight
        ∧ (main env v opts).world.buttonPreviousID = c.gButtonCookie_SystemMenuLeft) := by
  have hrefl : ∀ v : World, sameRoles v v := fun v => ⟨rfl, rfl⟩
  obtain ⟨h1, h2, -⟩ := getHIDCookies_roles env w0 handle cookies w hn hp hget
  refine ⟨⟨h1, h2⟩,
    fun v b => PreviewChangeSlide_roles (hrefl v) b,
    fun v q => QueueCallbackFunction_roles (hrefl v) q,
    fun v e m => ⟨print_errmsg_if_io_err_roles (hrefl v) env e m,
      print_errmsg_if_err_roles (hrefl v) e m⟩,
    fun v => addQueueCallbacks_roles (hrefl v) env,
    fun v => CFRunLoopRun_roles (hrefl v) env,
    fun v c => processQueue_roles (hrefl v) env c,
    fun v c => doRun_roles (hrefl v) env c,
    fun v hdi => createHIDDeviceInterface_roles (hrefl v) env hdi,
    fun v => usage_roles (hrefl v),
    fun v opts => main_options_roles opts v (hrefl v),
    fun v => setupAndRun_roles env v, ?_,
    fun v opts => main_world env v opts, ?_⟩
  · intro hacq v
    refine ⟨_, _, ?_, setupAndRun_acquired env v hacq⟩
    obtain ⟨-, -, -, -, h5, h6, -⟩ := hacq
    unfold getHIDCookies
    simp only [h5, h6, Bool.not_true, Bool.false_eq_true, if_false, ne_eq,
      not_true_eq_false, reduceCtorEq, or_self]
    rfl
  · intro v opts v1 hdi w1 c w2 hvn hvp hopt hs hc hg
    obtain ⟨hv1, hmain⟩ := (main_world env v opts).1 v1 hopt
    obtain ⟨hw1, hfin, -⟩ := (setupAndRun_roles env v1).2.2 hdi w1 hs hc
    have hend := hfin c w2 hg
    have hz1 : w1.buttonNextID = 0 := by rw [hw1.1, hv1.1, hvn]
    have hz2 : w1.buttonPreviousID = 0 := by rw [hw1.2, hv1.2, hvp]
    obtain ⟨g1, g2, -⟩ := getHIDCookies_roles env w1 hdi c w2 hz1 hz2 hg
    rw [hmain]
    exact ⟨hend.1.trans g1, hend.2.trans g2⟩

/-- C10 at the concrete remote, whose element list has one Right element
(cookie 4) and one Left element (cookie 5) on the Generic-Desktop page. -/
theorem C10_roles_written_only_by_getHIDCookies_witness :
    getHIDCookies Env.remote World.initial .object
      = .ret Env.remoteCookies (World.resolved 0)
    ∧ (World.resolved 0).buttonNextID = Env.remoteCookies.gButtonCookie_SystemMenuRight
    ∧ (World.resolved 0).buttonPreviousID = Env.remoteCookies.gButtonCookie_SystemMenuLeft :=
  ⟨by decide,
    (C10_roles_written_only_by_getHIDCookies Env.remote World.initial .object
      Env.remoteCookies (World.resolved 0) rfl rfl (by decide)).1⟩

end Ird
